import Mathlib

/-!
# Robotic-arm backend (`Backend/backend.cpp`, `Backend/backend.h`)

A shallow embedding of the `Backend` class: the joint-limit table, the guarded
setters, the preset moves, the collision heuristics and the forward kinematics.

* C++ `int` joint angles are mathematical integers (`Int`); no operation of the
  class adds or multiplies them, the only arithmetic on them is `abs`.
* `double`/`float` arithmetic is idealised: the numeric definitions are generic
  in an ordered field `α` and take the library functions (`cos`, `sin`, `sqrt`,
  the constant `M_PI`) as a record `MathOps α`.  Statements about numbers
  instantiate it with the real functions.
* Qt signals are recorded, in emission order, in the `emitted` log of the state.
-/

namespace RobotArm

/-! ## Joint limits -/

/-- The `struct JointLimits { int min; int max; }` of `backend.h`. -/
structure JointLimits where
  min : Int
  max : Int
  deriving DecidableEq, Repr

/-- The static table `Backend::s_jointLimits[6]`. -/
def s_jointLimits : List JointLimits :=
  [ ⟨-180, 180⟩,  -- Joint 1: Base rotation
    ⟨-90, 90⟩,    -- Joint 2: Shoulder pitch
    ⟨-135, 135⟩,  -- Joint 3: Elbow pitch
    ⟨-180, 180⟩,  -- Joint 4: Wrist roll
    ⟨-90, 90⟩,    -- Joint 5: Wrist pitch
    ⟨-180, 180⟩ ] -- Joint 6: Wrist yaw

/-- The array read `s_jointLimits[joint]` with a C++ `int` index.  The result is
`none` exactly when the index is outside the six-element array, where the C++
read would be out of bounds. -/
def jointLimitsAt (joint : Int) : Option JointLimits :=
  if joint < 0 then none else s_jointLimits.get? joint.toNat

/-- The body of `Backend::isWithinJointLimits` with the table reads made
explicit: `none` would mean that the function read the table out of bounds. -/
def isWithinJointLimitsChecked (joint angle : Int) : Option Bool :=
  if joint < 0 ∨ joint ≥ 6 then some false
  else
    match jointLimitsAt joint, jointLimitsAt joint with
    | some lo, some hi => some (decide (angle ≥ lo.min) && decide (angle ≤ hi.max))
    | _, _ => none

/-- The function `Backend::isWithinJointLimits` as a total Boolean function (the
checked version never faults, see `isWithinJointLimitsChecked_eq_some`). -/
def isWithinJointLimits (joint angle : Int) : Bool :=
  match isWithinJointLimitsChecked joint angle with
  | some b => b
  | none => false

/-- The function `Backend::isPositionSafe`. -/
def isPositionSafe (j1 j2 j3 j4 j5 j6 : Int) : Bool :=
  if (!isWithinJointLimits 0 j1 || !isWithinJointLimits 1 j2 ||
      !isWithinJointLimits 2 j3 || !isWithinJointLimits 3 j4 ||
      !isWithinJointLimits 4 j5 || !isWithinJointLimits 5 j6) then
    false
  else
    -- Additional safety checks can be added here
    true

/-! ## Numeric types -/

/-- The library functions and the constant that the `double` computations of
`backend.cpp` use: `M_PI`, `cos`, `sin` and the square root taken by
`QVector3D::length`. -/
structure MathOps (α : Type) where
  pi : α
  cos : α → α
  sin : α → α
  sqrt : α → α

/-- The Qt value type `QVector3D`: three coordinates. -/
structure QVector3D (α : Type) where
  x : α
  y : α
  z : α
  deriving DecidableEq, Repr

/-- The Qt function `QVector3D::length`: the Euclidean norm. -/
def QVector3D.length {α : Type} [LinearOrderedField α] (m : MathOps α) (v : QVector3D α) : α :=
  m.sqrt (v.x * v.x + v.y * v.y + v.z * v.z)

/-- The Qt function `qDegreesToRadians` on an `int` argument:
`double(degrees) * (M_PI / 180)`. -/
def qDegreesToRadians {α : Type} [LinearOrderedField α] (m : MathOps α) (degrees : Int) : α :=
  (degrees : α) * (m.pi / 180)

/-- The Qt function `qBound(min, val, max)`, which is `qMax(min, qMin(max, val))`. -/
def qBound (lo val hi : Int) : Int :=
  Max.max lo (Min.min hi val)

/-! ## Signals and value holders -/

/-- The signals declared by `Backend` (`signals:` section of `backend.h`). -/
inductive Signal where
  | joint1RotationChanged
  | joint2RotationChanged
  | joint3RotationChanged
  | joint4RotationChanged
  | joint5RotationChanged
  | joint6RotationChanged
  | gripperAngleChanged
  | isMovingChanged
  | hasCollisionChanged
  | endEffectorPositionChanged
  | emergencyStop
  | positionReached
  deriving DecidableEq, Repr

/-- Modelled from the spec: the class `AnimatedParam` (`animatedparam.h` is not
among the sources).  The spec's value holder has a current value and reports
whether it is still interpolating. -/
structure AnimatedParam where
  value : Int
  isRunning : Bool
  deriving DecidableEq, Repr

/-- Modelled from the spec: `AnimatedParam::setValue` (`animatedparam.h` is not
among the sources).  The holder is retargeted and the write is taken as committed,
that is, as the holder stands once the interpolation has completed: the current
value is the target and the holder no longer interpolates.  The second component
tells whether `valueChanged` fires, which the spec says happens whenever the
current value changes. -/
def AnimatedParam.setValue (p : AnimatedParam) (newValue : Int) : AnimatedParam × Bool :=
  ({ value := newValue, isRunning := false }, decide (newValue ≠ p.value))

/-! ## The `Backend` object -/

/-- The data members of `Backend` that carry state, and the log of the signals
emitted so far.  The bound properties `m_status` and `m_isMoving` are functions
of the other members (`Backend.status`, `Backend.isMoving`). -/
structure Backend (α : Type) where
  m_joint1Rotation : AnimatedParam
  m_joint2Rotation : AnimatedParam
  m_joint3Rotation : AnimatedParam
  m_joint4Rotation : AnimatedParam
  m_joint5Rotation : AnimatedParam
  m_joint6Rotation : AnimatedParam
  m_gripperAngle : AnimatedParam
  m_isCollision : Bool
  m_endEffectorPosition : QVector3D α
  emitted : List Signal

namespace Backend

variable {α : Type} [LinearOrderedField α]

/-- The statement `emit sig`. -/
def emit (sig : Signal) (s : Backend α) : Backend α :=
  { s with emitted := s.emitted ++ [sig] }

/-! ### Getters -/

def joint1Rotation (s : Backend α) : Int := s.m_joint1Rotation.value
def joint2Rotation (s : Backend α) : Int := s.m_joint2Rotation.value
def joint3Rotation (s : Backend α) : Int := s.m_joint3Rotation.value
def joint4Rotation (s : Backend α) : Int := s.m_joint4Rotation.value
def joint5Rotation (s : Backend α) : Int := s.m_joint5Rotation.value
def joint6Rotation (s : Backend α) : Int := s.m_joint6Rotation.value
def gripperAngle (s : Backend α) : Int := s.m_gripperAngle.value
def hasCollision (s : Backend α) : Bool := s.m_isCollision
def endEffectorPosition (s : Backend α) : QVector3D α := s.m_endEffectorPosition

/-- The seven values that the getters `joint1Rotation()` .. `joint6Rotation()` and
`gripperAngle()` return, in this order. -/
def values (s : Backend α) : List Int :=
  [s.joint1Rotation, s.joint2Rotation, s.joint3Rotation, s.joint4Rotation,
   s.joint5Rotation, s.joint6Rotation, s.gripperAngle]

/-- The seven value holders, joints 1 to 6 and then the gripper. -/
def holders (s : Backend α) : List AnimatedParam :=
  [s.m_joint1Rotation, s.m_joint2Rotation, s.m_joint3Rotation, s.m_joint4Rotation,
   s.m_joint5Rotation, s.m_joint6Rotation, s.m_gripperAngle]

/-- The getter `workspaceRadius()` of `backend.h`. -/
def workspaceRadius : α := 1.2

/-- The binding of `m_isMoving` set up in the constructor. -/
def isMoving (s : Backend α) : Bool :=
  s.m_joint1Rotation.isRunning || s.m_joint2Rotation.isRunning ||
  s.m_joint3Rotation.isRunning || s.m_joint4Rotation.isRunning ||
  s.m_joint5Rotation.isRunning || s.m_joint6Rotation.isRunning ||
  s.m_gripperAngle.isRunning

/-- The binding of `m_status` set up in the constructor. -/
def status (s : Backend α) : String :=
  if s.m_isCollision then "⚠️ Collision Detected!"
  else if s.isMoving then "🔄 Moving..."
  else "✅ Ready"

/-! ### Private methods -/

/-- The method `Backend::updateMovingState`. -/
def updateMovingState (s : Backend α) : Backend α :=
  let s := if !s.isMoving then s.emit .positionReached else s
  s.emit .isMovingChanged

/-- The two clauses of `Backend::checkSelfCollision`, on the three joint values
they read. -/
def selfCollisionRule (j1 j2 j3 : Int) : Bool :=
  if decide (|j2| > 60) && decide (|j3| > 100) then
    true  -- Shoulder and elbow combination might cause collision
  else if decide (j1 ≠ 0) && decide (|j2| < -70) then
    true  -- Base rotation with low shoulder might hit base
  else
    false

/-- The method `Backend::checkSelfCollision`. -/
def checkSelfCollision (s : Backend α) : Bool :=
  selfCollisionRule s.joint1Rotation s.joint2Rotation s.joint3Rotation

/-- The method `Backend::checkWorkspaceLimits`. -/
def checkWorkspaceLimits (m : MathOps α) (s : Backend α) : Bool :=
  let pos := s.endEffectorPosition
  let distance := pos.length m
  decide (distance > workspaceRadius)

/-- The placeholder `Backend::checkBaseCollisions`. -/
def checkBaseCollisions (_s : Backend α) : Bool := false

/-- The placeholder `Backend::checkArmSegmentCollisions`. -/
def checkArmSegmentCollisions (_s : Backend α) : Bool := false

/-- The placeholder `Backend::checkWristCollisions`. -/
def checkWristCollisions (_s : Backend α) : Bool := false

/-- The placeholder `Backend::checkGripperCollisions`. -/
def checkGripperCollisions (_s : Backend α) : Bool := false

/-- The local variable `collision` of `Backend::detectCollision` after the six
`|=` updates. -/
def collisionValue (m : MathOps α) (s : Backend α) : Bool :=
  let collision := false
  let collision := collision || s.checkSelfCollision
  let collision := collision || s.checkWorkspaceLimits m
  let collision := collision || s.checkBaseCollisions
  let collision := collision || s.checkArmSegmentCollisions
  let collision := collision || s.checkWristCollisions
  let collision := collision || s.checkGripperCollisions
  collision

/-- The method `Backend::detectCollision`. -/
def detectCollision (m : MathOps α) (s : Backend α) : Backend α :=
  let collision := s.collisionValue m
  if collision != s.m_isCollision then
    let s := { s with m_isCollision := collision }
    let s := s.emit .hasCollisionChanged
    if collision then s.emit .emergencyStop else s
  else s

/-- The vector `newPosition` that `Backend::calculateForwardKinematics` computes
from the six joint angles (in degrees). -/
def forwardKinematicsPosition (m : MathOps α) (j1 j2 j3 j4 j5 j6 : Int) : QVector3D α :=
  let L1 : α := 0.084  -- Base to shoulder height
  let L2 : α := 0.173  -- Shoulder to elbow length
  let L3 : α := 0.089  -- Elbow forward offset
  let L4 : α := 0.169  -- Elbow to wrist height
  let L5 : α := 0.038  -- Wrist segment 1
  let L6 : α := 0.038  -- Wrist segment 2
  let L7 : α := 0.036  -- Wrist to gripper
  let q1 := qDegreesToRadians m j1
  let q2 := qDegreesToRadians m j2
  let q3 := qDegreesToRadians m j3
  let _q4 := qDegreesToRadians m j4
  let _q5 := qDegreesToRadians m j5
  let _q6 := qDegreesToRadians m j6
  let x := m.cos q1 * (L2 + L3 * m.cos q2 + L4 * m.cos (q2 + q3))
  let y := L1 + L3 * m.sin q2 + L4 * m.sin (q2 + q3) + L5 + L6 + L7
  let z := m.sin q1 * (L2 + L3 * m.cos q2 + L4 * m.cos (q2 + q3))
  ⟨x, y, z⟩

/-- The method `Backend::calculateForwardKinematics`. -/
def calculateForwardKinematics (m : MathOps α) (s : Backend α) : Backend α :=
  let newPosition := forwardKinematicsPosition m s.joint1Rotation s.joint2Rotation
    s.joint3Rotation s.joint4Rotation s.joint5Rotation s.joint6Rotation
  if newPosition ≠ s.m_endEffectorPosition then
    ({ s with m_endEffectorPosition := newPosition }).emit .endEffectorPositionChanged
  else s

/-- The method `Backend::updateEndEffectorPosition`. -/
def updateEndEffectorPosition (m : MathOps α) (s : Backend α) : Backend α :=
  s.calculateForwardKinematics m

/-! ### Signal connections made by the constructor -/

/-- The receivers of a joint holder's `valueChanged`, in the order in which the
constructor connects them: the joint's NOTIFY signal, `updateMovingState`,
`detectCollision`, `updateEndEffectorPosition`. -/
def jointValueChanged (m : MathOps α) (notify : Signal) (s : Backend α) : Backend α :=
  let s := s.emit notify
  let s := s.updateMovingState
  let s := s.detectCollision m
  s.updateEndEffectorPosition m

/-- The receivers of the gripper holder's `valueChanged`, in connection order:
`gripperAngleChanged`, then `updateMovingState`. -/
def gripperValueChanged (s : Backend α) : Backend α :=
  let s := s.emit .gripperAngleChanged
  s.updateMovingState

/-- The constructor `Backend::Backend`: value holders at 0 and idle, collision
flag false, a default `QVector3D`, then `updateEndEffectorPosition()`. -/
def new (m : MathOps α) : Backend α :=
  updateEndEffectorPosition m
    { m_joint1Rotation := ⟨0, false⟩, m_joint2Rotation := ⟨0, false⟩,
      m_joint3Rotation := ⟨0, false⟩, m_joint4Rotation := ⟨0, false⟩,
      m_joint5Rotation := ⟨0, false⟩, m_joint6Rotation := ⟨0, false⟩,
      m_gripperAngle := ⟨0, false⟩, m_isCollision := false,
      m_endEffectorPosition := ⟨0, 0, 0⟩, emitted := [] }

/-! ### Writes to the value holders -/

/-- The call `m_joint1Rotation.setValue(angle)` together with the receivers that
run when the holder fires `valueChanged`. -/
def m_joint1Rotation_setValue (m : MathOps α) (angle : Int) (s : Backend α) : Backend α :=
  let r := s.m_joint1Rotation.setValue angle
  let s := { s with m_joint1Rotation := r.1 }
  if r.2 then s.jointValueChanged m .joint1RotationChanged else s

/-- The call `m_joint2Rotation.setValue(angle)` together with the receivers that
run when the holder fires `valueChanged`. -/
def m_joint2Rotation_setValue (m : MathOps α) (angle : Int) (s : Backend α) : Backend α :=
  let r := s.m_joint2Rotation.setValue angle
  let s := { s with m_joint2Rotation := r.1 }
  if r.2 then s.jointValueChanged m .joint2RotationChanged else s

/-- The call `m_joint3Rotation.setValue(angle)` together with the receivers that
run when the holder fires `valueChanged`. -/
def m_joint3Rotation_setValue (m : MathOps α) (angle : Int) (s : Backend α) : Backend α :=
  let r := s.m_joint3Rotation.setValue angle
  let s := { s with m_joint3Rotation := r.1 }
  if r.2 then s.jointValueChanged m .joint3RotationChanged else s

/-- The call `m_joint4Rotation.setValue(angle)` together with the receivers that
run when the holder fires `valueChanged`. -/
def m_joint4Rotation_setValue (m : MathOps α) (angle : Int) (s : Backend α) : Backend α :=
  let r := s.m_joint4Rotation.setValue angle
  let s := { s with m_joint4Rotation := r.1 }
  if r.2 then s.jointValueChanged m .joint4RotationChanged else s

/-- The call `m_joint5Rotation.setValue(angle)` together with the receivers that
run when the holder fires `valueChanged`. -/
def m_joint5Rotation_setValue (m : MathOps α) (angle : Int) (s : Backend α) : Backend α :=
  let r := s.m_joint5Rotation.setValue angle
  let s := { s with m_joint5Rotation := r.1 }
  if r.2 then s.jointValueChanged m .joint5RotationChanged else s

/-- The call `m_joint6Rotation.setValue(angle)` together with the receivers that
run when the holder fires `valueChanged`. -/
def m_joint6Rotation_setValue (m : MathOps α) (angle : Int) (s : Backend α) : Backend α :=
  let r := s.m_joint6Rotation.setValue angle
  let s := { s with m_joint6Rotation := r.1 }
  if r.2 then s.jointValueChanged m .joint6RotationChanged else s

/-- The call `m_gripperAngle.setValue(angle)` together with the receivers that run
when the holder fires `valueChanged`. -/
def m_gripperAngle_setValue (angle : Int) (s : Backend α) : Backend α :=
  let r := s.m_gripperAngle.setValue angle
  let s := { s with m_gripperAngle := r.1 }
  if r.2 then s.gripperValueChanged else s

/-! ### Setters -/

/-- The slot `Backend::setJoint1Rotation`. -/
def setJoint1Rotation (m : MathOps α) (angle : Int) (s : Backend α) : Backend α :=
  if isWithinJointLimits 0 angle then
    s.m_joint1Rotation_setValue m angle
  else s

/-- The slot `Backend::setJoint2Rotation`. -/
def setJoint2Rotation (m : MathOps α) (angle : Int) (s : Backend α) : Backend α :=
  if isWithinJointLimits 1 angle then
    s.m_joint2Rotation_setValue m angle
  else s

/-- The slot `Backend::setJoint3Rotation`. -/
def setJoint3Rotation (m : MathOps α) (angle : Int) (s : Backend α) : Backend α :=
  if isWithinJointLimits 2 angle then
    s.m_joint3Rotation_setValue m angle
  else s

/-- The slot `Backend::setJoint4Rotation`. -/
def setJoint4Rotation (m : MathOps α) (angle : Int) (s : Backend α) : Backend α :=
  if isWithinJointLimits 3 angle then
    s.m_joint4Rotation_setValue m angle
  else s

/-- The slot `Backend::setJoint5Rotation`. -/
def setJoint5Rotation (m : MathOps α) (angle : Int) (s : Backend α) : Backend α :=
  if isWithinJointLimits 4 angle then
    s.m_joint5Rotation_setValue m angle
  else s

/-- The slot `Backend::setJoint6Rotation`. -/
def setJoint6Rotation (m : MathOps α) (angle : Int) (s : Backend α) : Backend α :=
  if isWithinJointLimits 5 angle then
    s.m_joint6Rotation_setValue m angle
  else s

/-- The slot `Backend::setGripperAngle`. -/
def setGripperAngle (angle : Int) (s : Backend α) : Backend α :=
  -- Gripper limits: 0-45 degrees
  let angle := qBound 0 angle 45
  s.m_gripperAngle_setValue angle

/-- The slot `Backend::setAllJoints`. -/
def setAllJoints (m : MathOps α) (j1 j2 j3 j4 j5 j6 : Int) (s : Backend α) : Backend α :=
  if isPositionSafe j1 j2 j3 j4 j5 j6 then
    let s := s.setJoint1Rotation m j1
    let s := s.setJoint2Rotation m j2
    let s := s.setJoint3Rotation m j3
    let s := s.setJoint4Rotation m j4
    let s := s.setJoint5Rotation m j5
    s.setJoint6Rotation m j6
  else s

/-- The slot `Backend::setJointAnglesSmooth`; the duration is not used. -/
def setJointAnglesSmooth (m : MathOps α) (j1 j2 j3 j4 j5 j6 _duration : Int)
    (s : Backend α) : Backend α :=
  s.setAllJoints m j1 j2 j3 j4 j5 j6

/-! ### Convenience methods -/

/-- The slot `Backend::moveToHome`. -/
def moveToHome (m : MathOps α) (s : Backend α) : Backend α :=
  (s.setAllJoints m 0 0 0 0 0 0).setGripperAngle 0

/-- The slot `Backend::moveToPickPosition`. -/
def moveToPickPosition (m : MathOps α) (s : Backend α) : Backend α :=
  (s.setAllJoints m 0 (-45) 90 0 (-45) 0).setGripperAngle 30

/-- The slot `Backend::moveToRestPosition`. -/
def moveToRestPosition (m : MathOps α) (s : Backend α) : Backend α :=
  (s.setAllJoints m 0 75 (-110) 0 35 0).setGripperAngle 0

/-- The slot `Backend::moveToServicePosition`. -/
def moveToServicePosition (m : MathOps α) (s : Backend α) : Backend α :=
  (s.setAllJoints m 90 0 (-90) 90 0 0).setGripperAngle 15

/-- The slot `Backend::openGripper`. -/
def openGripper (s : Backend α) : Backend α :=
  s.setGripperAngle 45

/-- The slot `Backend::closeGripper`. -/
def closeGripper (s : Backend α) : Backend α :=
  s.setGripperAngle 0

/-- The slot `Backend::stopAllMotion`. -/
def stopAllMotion (s : Backend α) : Backend α :=
  s.emit .emergencyStop

end Backend

/-! ## Sequences of public operations -/

/-- One call of a public slot of `Backend`, with its arguments. -/
inductive Op where
  | setJoint1Rotation (angle : Int)
  | setJoint2Rotation (angle : Int)
  | setJoint3Rotation (angle : Int)
  | setJoint4Rotation (angle : Int)
  | setJoint5Rotation (angle : Int)
  | setJoint6Rotation (angle : Int)
  | setGripperAngle (angle : Int)
  | setAllJoints (j1 j2 j3 j4 j5 j6 : Int)
  | setJointAnglesSmooth (j1 j2 j3 j4 j5 j6 duration : Int)
  | moveToHome
  | moveToPickPosition
  | moveToRestPosition
  | moveToServicePosition
  | openGripper
  | closeGripper
  | stopAllMotion
  deriving DecidableEq, Repr

/-- Run one public operation. -/
def Op.run {α : Type} [LinearOrderedField α] (m : MathOps α) (s : Backend α) : Op → Backend α
  | .setJoint1Rotation a => s.setJoint1Rotation m a
  | .setJoint2Rotation a => s.setJoint2Rotation m a
  | .setJoint3Rotation a => s.setJoint3Rotation m a
  | .setJoint4Rotation a => s.setJoint4Rotation m a
  | .setJoint5Rotation a => s.setJoint5Rotation m a
  | .setJoint6Rotation a => s.setJoint6Rotation m a
  | .setGripperAngle a => s.setGripperAngle a
  | .setAllJoints j1 j2 j3 j4 j5 j6 => s.setAllJoints m j1 j2 j3 j4 j5 j6
  | .setJointAnglesSmooth j1 j2 j3 j4 j5 j6 d => s.setJointAnglesSmooth m j1 j2 j3 j4 j5 j6 d
  | .moveToHome => s.moveToHome m
  | .moveToPickPosition => s.moveToPickPosition m
  | .moveToRestPosition => s.moveToRestPosition m
  | .moveToServicePosition => s.moveToServicePosition m
  | .openGripper => s.openGripper
  | .closeGripper => s.closeGripper
  | .stopAllMotion => s.stopAllMotion

/-- Run a finite sequence of public operations, first to last. -/
def runOps {α : Type} [LinearOrderedField α] (m : MathOps α) (s : Backend α) (ops : List Op) :
    Backend α :=
  ops.foldl (Op.run m) s

/-- The joint invariant of the data model: every joint value within its limits
and the gripper value within `[0, 45]`. -/
def Backend.WithinLimits {α : Type} (s : Backend α) : Prop :=
  isWithinJointLimits 0 s.m_joint1Rotation.value = true ∧
  isWithinJointLimits 1 s.m_joint2Rotation.value = true ∧
  isWithinJointLimits 2 s.m_joint3Rotation.value = true ∧
  isWithinJointLimits 3 s.m_joint4Rotation.value = true ∧
  isWithinJointLimits 4 s.m_joint5Rotation.value = true ∧
  isWithinJointLimits 5 s.m_joint6Rotation.value = true ∧
  0 ≤ s.m_gripperAngle.value ∧ s.m_gripperAngle.value ≤ 45

/-! ## Derived state -/

/-- The three assignments `x`, `y`, `z` of `Backend::calculateForwardKinematics`,
as a function of the radian angles `q1`, `q2`, `q3` that they read. -/
def forwardKinematicsFormula {α : Type} [LinearOrderedField α] (m : MathOps α) (q1 q2 q3 : α) :
    QVector3D α :=
  let L1 : α := 0.084  -- Base to shoulder height
  let L2 : α := 0.173  -- Shoulder to elbow length
  let L3 : α := 0.089  -- Elbow forward offset
  let L4 : α := 0.169  -- Elbow to wrist height
  let L5 : α := 0.038  -- Wrist segment 1
  let L6 : α := 0.038  -- Wrist segment 2
  let L7 : α := 0.036  -- Wrist to gripper
  let x := m.cos q1 * (L2 + L3 * m.cos q2 + L4 * m.cos (q2 + q3))
  let y := L1 + L3 * m.sin q2 + L4 * m.sin (q2 + q3) + L5 + L6 + L7
  let z := m.sin q1 * (L2 + L3 * m.cos q2 + L4 * m.cos (q2 + q3))
  ⟨x, y, z⟩

/-- The members of `Backend` as they stand when the body of the constructor
starts: holders at 0 and idle, collision flag false, a default `QVector3D`. -/
def Backend.initialMembers {α : Type} [LinearOrderedField α] : Backend α :=
  { m_joint1Rotation := ⟨0, false⟩, m_joint2Rotation := ⟨0, false⟩,
    m_joint3Rotation := ⟨0, false⟩, m_joint4Rotation := ⟨0, false⟩,
    m_joint5Rotation := ⟨0, false⟩, m_joint6Rotation := ⟨0, false⟩,
    m_gripperAngle := ⟨0, false⟩, m_isCollision := false,
    m_endEffectorPosition := ⟨0, 0, 0⟩, emitted := [] }

/-- The derived members are up to date: the stored end-effector position is the
forward-kinematics position of the current joint values, and the collision flag
is the OR of the six heuristics on the current joints and the stored position. -/
def Backend.UpToDate {α : Type} [LinearOrderedField α] (m : MathOps α) (s : Backend α) : Prop :=
  s.m_endEffectorPosition =
      Backend.forwardKinematicsPosition m s.joint1Rotation s.joint2Rotation s.joint3Rotation
        s.joint4Rotation s.joint5Rotation s.joint6Rotation ∧
  s.m_isCollision = s.collisionValue m

/-- The number of times a signal occurs in the log. -/
def Backend.emittedCount {α : Type} (sig : Signal) (s : Backend α) : Nat :=
  s.emitted.count sig

/-- The collision flag is only ever set together with an `emergencyStop`: if the
flag is set, the log has an `emergencyStop`. -/
def Backend.StopLogged {α : Type} (s : Backend α) : Prop :=
  s.m_isCollision = true → Signal.emergencyStop ∈ s.emitted

/-! ## Theorems -/

/-! ### The limit check -/

/-- Unfolding of the limit check at each of the six valid indices. -/
theorem isWithinJointLimitsChecked_valid (i a : Int) (h0 : 0 ≤ i) (h6 : i < 6) :
    ∃ l, s_jointLimits.get? i.toNat = some l ∧
      isWithinJointLimitsChecked i a = some (decide (a ≥ l.min) && decide (a ≤ l.max)) := by
  have hi : i = 0 ∨ i = 1 ∨ i = 2 ∨ i = 3 ∨ i = 4 ∨ i = 5 := by omega
  rcases hi with rfl | rfl | rfl | rfl | rfl | rfl <;>
    exact ⟨_, rfl, rfl⟩

/-- An index outside the table makes the check answer `false` without a read. -/
theorem isWithinJointLimitsChecked_invalid (i a : Int) (h : i < 0 ∨ 6 ≤ i) :
    isWithinJointLimitsChecked i a = some false := by
  unfold isWithinJointLimitsChecked
  rw [if_pos]
  omega

/-- The checked limit test never faults, and the total one is its value. -/
theorem isWithinJointLimitsChecked_eq_some (i a : Int) :
    isWithinJointLimitsChecked i a = some (isWithinJointLimits i a) := by
  by_cases h : i < 0 ∨ 6 ≤ i
  · simp [isWithinJointLimits, isWithinJointLimitsChecked_invalid i a h]
  · obtain ⟨l, -, hl⟩ := isWithinJointLimitsChecked_valid i a (by omega) (by omega)
    simp [isWithinJointLimits, hl]

theorem isWithinJointLimits_zero (a : Int) :
    isWithinJointLimits 0 a = true ↔ -180 ≤ a ∧ a ≤ 180 := by
  simp [isWithinJointLimits, isWithinJointLimitsChecked, jointLimitsAt, s_jointLimits]

theorem isWithinJointLimits_one (a : Int) :
    isWithinJointLimits 1 a = true ↔ -90 ≤ a ∧ a ≤ 90 := by
  simp [isWithinJointLimits, isWithinJointLimitsChecked, jointLimitsAt, s_jointLimits]

theorem isWithinJointLimits_two (a : Int) :
    isWithinJointLimits 2 a = true ↔ -135 ≤ a ∧ a ≤ 135 := by
  simp [isWithinJointLimits, isWithinJointLimitsChecked, jointLimitsAt, s_jointLimits]

theorem isWithinJointLimits_three (a : Int) :
    isWithinJointLimits 3 a = true ↔ -180 ≤ a ∧ a ≤ 180 := by
  simp [isWithinJointLimits, isWithinJointLimitsChecked, jointLimitsAt, s_jointLimits]

theorem isWithinJointLimits_four (a : Int) :
    isWithinJointLimits 4 a = true ↔ -90 ≤ a ∧ a ≤ 90 := by
  simp [isWithinJointLimits, isWithinJointLimitsChecked, jointLimitsAt, s_jointLimits]

theorem isWithinJointLimits_five (a : Int) :
    isWithinJointLimits 5 a = true ↔ -180 ≤ a ∧ a ≤ 180 := by
  simp [isWithinJointLimits, isWithinJointLimitsChecked, jointLimitsAt, s_jointLimits]

/-- The safety gate is the conjunction of the six limit checks. -/
theorem isPositionSafe_eq_true_iff (j1 j2 j3 j4 j5 j6 : Int) :
    isPositionSafe j1 j2 j3 j4 j5 j6 = true ↔
      isWithinJointLimits 0 j1 = true ∧ isWithinJointLimits 1 j2 = true ∧
      isWithinJointLimits 2 j3 = true ∧ isWithinJointLimits 3 j4 = true ∧
      isWithinJointLimits 4 j5 = true ∧ isWithinJointLimits 5 j6 = true := by
  unfold isPositionSafe
  cases isWithinJointLimits 0 j1 <;> cases isWithinJointLimits 1 j2 <;>
    cases isWithinJointLimits 2 j3 <;> cases isWithinJointLimits 3 j4 <;>
    cases isWithinJointLimits 4 j5 <;> cases isWithinJointLimits 5 j6 <;> simp

/-- C3: for every joint index `i` in `0..5` and every angle `a`, the limit check
`isWithinJointLimits i a` holds exactly when `min ≤ a ≤ max` for entry `i` of the
limit table, and that table is (-180,180), (-90,90), (-135,135), (-180,180),
(-90,90), (-180,180). -/
theorem C3_isWithinJointLimits_iff_in_table (i a : Int) (h0 : 0 ≤ i) (h6 : i < 6) :
    ∃ l, s_jointLimits.get? i.toNat = some l ∧
      ([(-180, 180), (-90, 90), (-135, 135), (-180, 180), (-90, 90), (-180, 180)] :
        List (Int × Int)).get? i.toNat = some (l.min, l.max) ∧
      (isWithinJointLimits i a = true ↔ l.min ≤ a ∧ a ≤ l.max) := by
  have hi : i = 0 ∨ i = 1 ∨ i = 2 ∨ i = 3 ∨ i = 4 ∨ i = 5 := by omega
  rcases hi with rfl | rfl | rfl | rfl | rfl | rfl
  · exact ⟨⟨-180, 180⟩, rfl, rfl, isWithinJointLimits_zero a⟩
  · exact ⟨⟨-90, 90⟩, rfl, rfl, isWithinJointLimits_one a⟩
  · exact ⟨⟨-135, 135⟩, rfl, rfl, isWithinJointLimits_two a⟩
  · exact ⟨⟨-180, 180⟩, rfl, rfl, isWithinJointLimits_three a⟩
  · exact ⟨⟨-90, 90⟩, rfl, rfl, isWithinJointLimits_four a⟩
  · exact ⟨⟨-180, 180⟩, rfl, rfl, isWithinJointLimits_five a⟩

/-- C3 at joint index 2 and angle 135, the upper end of the elbow range. -/
theorem C3_isWithinJointLimits_iff_in_table_witness :
    (0 : Int) ≤ 2 ∧ (2 : Int) < 6 ∧
    ∃ l, s_jointLimits.get? (2 : Int).toNat = some l ∧
      ([(-180, 180), (-90, 90), (-135, 135), (-180, 180), (-90, 90), (-180, 180)] :
        List (Int × Int)).get? (2 : Int).toNat = some (l.min, l.max) ∧
      (isWithinJointLimits 2 135 = true ↔ l.min ≤ 135 ∧ 135 ≤ l.max) :=
  ⟨by decide, by decide, C3_isWithinJointLimits_iff_in_table 2 135 (by decide) (by decide)⟩

/-- C4: for a joint index `i < 0` or `i ≥ 6` the limit check returns `false` for
every angle, although entry `i` of the table does not exist; and for no index at
all does the check read the table out of bounds (the checked version always
returns a value, namely that of `isWithinJointLimits`). -/
theorem C4_isWithinJointLimits_invalid_index (i a : Int) (h : i < 0 ∨ 6 ≤ i) :
    isWithinJointLimits i a = false ∧
    isWithinJointLimitsChecked i a = some false ∧
    jointLimitsAt i = none ∧
    (∀ j b : Int, isWithinJointLimitsChecked j b = some (isWithinJointLimits j b)) := by
  refine ⟨?_, isWithinJointLimitsChecked_invalid i a h, ?_, isWithinJointLimitsChecked_eq_some⟩
  · simp [isWithinJointLimits, isWithinJointLimitsChecked_invalid i a h]
  · unfold jointLimitsAt
    split
    · rfl
    · have h6 : 6 ≤ i.toNat := by omega
      simp [s_jointLimits, List.get?_eq_none, h6]

/-- C4 at index 6, the first index past the table, and at index -1. -/
theorem C4_isWithinJointLimits_invalid_index_witness :
    (isWithinJointLimits 6 0 = false ∧ isWithinJointLimitsChecked 6 0 = some false ∧
      jointLimitsAt 6 = none ∧
      (∀ j b : Int, isWithinJointLimitsChecked j b = some (isWithinJointLimits j b))) ∧
    isWithinJointLimits (-1) 0 = false :=
  ⟨C4_isWithinJointLimits_invalid_index 6 0 (by decide),
   (C4_isWithinJointLimits_invalid_index (-1) 0 (by decide)).1⟩

/-! ### Frame lemmas: what the signal receivers leave alone -/

theorem Backend.values_eq_map_holders {α : Type} [LinearOrderedField α] (s : Backend α) :
    s.values = s.holders.map AnimatedParam.value := rfl

theorem Backend.holders_emit {α : Type} [LinearOrderedField α] (sig : Signal) (s : Backend α) :
    (s.emit sig).holders = s.holders := rfl

theorem Backend.holders_updateMovingState {α : Type} [LinearOrderedField α] (s : Backend α) :
    s.updateMovingState.holders = s.holders := by
  unfold Backend.updateMovingState
  dsimp only
  split_ifs <;> rfl

theorem Backend.holders_detectCollision {α : Type} [LinearOrderedField α] (m : MathOps α)
    (s : Backend α) : (s.detectCollision m).holders = s.holders := by
  unfold Backend.detectCollision
  dsimp only
  split_ifs <;> rfl

theorem Backend.holders_updateEndEffectorPosition {α : Type} [LinearOrderedField α]
    (m : MathOps α) (s : Backend α) : (s.updateEndEffectorPosition m).holders = s.holders := by
  unfold Backend.updateEndEffectorPosition Backend.calculateForwardKinematics
  dsimp only
  split_ifs <;> rfl

theorem Backend.holders_jointValueChanged {α : Type} [LinearOrderedField α] (m : MathOps α)
    (sig : Signal) (s : Backend α) : (s.jointValueChanged m sig).holders = s.holders := by
  simp [Backend.jointValueChanged, Backend.holders_updateEndEffectorPosition,
    Backend.holders_detectCollision, Backend.holders_updateMovingState, Backend.holders_emit]

theorem Backend.holders_gripperValueChanged {α : Type} [LinearOrderedField α] (s : Backend α) :
    s.gripperValueChanged.holders = s.holders := by
  simp [Backend.gripperValueChanged, Backend.holders_updateMovingState, Backend.holders_emit]

/-- The constructed arm has every holder at 0 and idle. -/
theorem Backend.holders_new {α : Type} [LinearOrderedField α] (m : MathOps α) :
    (Backend.new m).holders = List.replicate 7 ⟨0, false⟩ := by
  unfold Backend.new
  rw [Backend.holders_updateEndEffectorPosition]
  rfl

theorem Backend.gripperAngle_new {α : Type} [LinearOrderedField α] (m : MathOps α) :
    (Backend.new m).gripperAngle = 0 := by
  have h := Backend.holders_new m
  simp only [Backend.holders, List.replicate, List.cons.injEq] at h
  simp [Backend.gripperAngle, h.2.2.2.2.2.2.1]

/-! ### Writes to one holder -/

theorem Backend.holders_m_joint1Rotation_setValue {α : Type} [LinearOrderedField α]
    (m : MathOps α) (a : Int) (s : Backend α) :
    (s.m_joint1Rotation_setValue m a).holders = s.holders.set 0 ⟨a, false⟩ := by
  unfold Backend.m_joint1Rotation_setValue
  dsimp only
  split_ifs
  · rw [Backend.holders_jointValueChanged]; rfl
  · rfl

theorem Backend.holders_m_joint2Rotation_setValue {α : Type} [LinearOrderedField α]
    (m : MathOps α) (a : Int) (s : Backend α) :
    (s.m_joint2Rotation_setValue m a).holders = s.holders.set 1 ⟨a, false⟩ := by
  unfold Backend.m_joint2Rotation_setValue
  dsimp only
  split_ifs
  · rw [Backend.holders_jointValueChanged]; rfl
  · rfl

theorem Backend.holders_m_joint3Rotation_setValue {α : Type} [LinearOrderedField α]
    (m : MathOps α) (a : Int) (s : Backend α) :
    (s.m_joint3Rotation_setValue m a).holders = s.holders.set 2 ⟨a, false⟩ := by
  unfold Backend.m_joint3Rotation_setValue
  dsimp only
  split_ifs
  · rw [Backend.holders_jointValueChanged]; rfl
  · rfl

theorem Backend.holders_m_joint4Rotation_setValue {α : Type} [LinearOrderedField α]
    (m : MathOps α) (a : Int) (s : Backend α) :
    (s.m_joint4Rotation_setValue m a).holders = s.holders.set 3 ⟨a, false⟩ := by
  unfold Backend.m_joint4Rotation_setValue
  dsimp only
  split_ifs
  · rw [Backend.holders_jointValueChanged]; rfl
  · rfl

theorem Backend.holders_m_joint5Rotation_setValue {α : Type} [LinearOrderedField α]
    (m : MathOps α) (a : Int) (s : Backend α) :
    (s.m_joint5Rotation_setValue m a).holders = s.holders.set 4 ⟨a, false⟩ := by
  unfold Backend.m_joint5Rotation_setValue
  dsimp only
  split_ifs
  · rw [Backend.holders_jointValueChanged]; rfl
  · rfl

theorem Backend.holders_m_joint6Rotation_setValue {α : Type} [LinearOrderedField α]
    (m : MathOps α) (a : Int) (s : Backend α) :
    (s.m_joint6Rotation_setValue m a).holders = s.holders.set 5 ⟨a, false⟩ := by
  unfold Backend.m_joint6Rotation_setValue
  dsimp only
  split_ifs
  · rw [Backend.holders_jointValueChanged]; rfl
  · rfl

theorem Backend.holders_m_gripperAngle_setValue {α : Type} [LinearOrderedField α]
    (a : Int) (s : Backend α) :
    (s.m_gripperAngle_setValue a).holders = s.holders.set 6 ⟨a, false⟩ := by
  unfold Backend.m_gripperAngle_setValue
  dsimp only
  split_ifs
  · rw [Backend.holders_gripperValueChanged]; rfl
  · rfl

/-! ### The invariant under single writes -/

/-- The invariant only reads the seven holders. -/
theorem Backend.withinLimits_iff_holders {α : Type} [LinearOrderedField α] (s : Backend α) :
    s.WithinLimits ↔
      ∃ p1 p2 p3 p4 p5 p6 g, s.holders = [p1, p2, p3, p4, p5, p6, g] ∧
        isWithinJointLimits 0 p1.value = true ∧ isWithinJointLimits 1 p2.value = true ∧
        isWithinJointLimits 2 p3.value = true ∧ isWithinJointLimits 3 p4.value = true ∧
        isWithinJointLimits 4 p5.value = true ∧ isWithinJointLimits 5 p6.value = true ∧
        0 ≤ g.value ∧ g.value ≤ 45 := by
  constructor
  · intro h
    exact ⟨_, _, _, _, _, _, _, rfl, h⟩
  · rintro ⟨p1, p2, p3, p4, p5, p6, g, hh, h⟩
    simp only [Backend.holders, List.cons.injEq, and_true] at hh
    obtain ⟨h1, h2, h3, h4, h5, h6, h7⟩ := hh
    subst h1 h2 h3 h4 h5 h6 h7
    exact h

theorem Backend.withinLimits_m_joint1Rotation_setValue {α : Type} [LinearOrderedField α]
    (m : MathOps α) (a : Int) (s : Backend α) (ha : isWithinJointLimits 0 a = true)
    (h : s.WithinLimits) : (s.m_joint1Rotation_setValue m a).WithinLimits := by
  rw [Backend.withinLimits_iff_holders, Backend.holders_m_joint1Rotation_setValue]
  obtain ⟨h1, h2, h3, h4, h5, h6, h7⟩ := h
  exact ⟨_, _, _, _, _, _, _, rfl, ha, h2, h3, h4, h5, h6, h7⟩

theorem Backend.withinLimits_setJoint1Rotation {α : Type} [LinearOrderedField α]
    (m : MathOps α) (a : Int) (s : Backend α) (h : s.WithinLimits) :
    (s.setJoint1Rotation m a).WithinLimits := by
  unfold Backend.setJoint1Rotation
  split_ifs with ha
  · exact Backend.withinLimits_m_joint1Rotation_setValue m a s ha h
  · exact h

theorem Backend.withinLimits_m_joint2Rotation_setValue {α : Type} [LinearOrderedField α]
    (m : MathOps α) (a : Int) (s : Backend α) (ha : isWithinJointLimits 1 a = true)
    (h : s.WithinLimits) : (s.m_joint2Rotation_setValue m a).WithinLimits := by
  rw [Backend.withinLimits_iff_holders, Backend.holders_m_joint2Rotation_setValue]
  obtain ⟨h1, h2, h3, h4, h5, h6, h7⟩ := h
  exact ⟨_, _, _, _, _, _, _, rfl, h1, ha, h3, h4, h5, h6, h7⟩

theorem Backend.withinLimits_setJoint2Rotation {α : Type} [LinearOrderedField α]
    (m : MathOps α) (a : Int) (s : Backend α) (h : s.WithinLimits) :
    (s.setJoint2Rotation m a).WithinLimits := by
  unfold Backend.setJoint2Rotation
  split_ifs with ha
  · exact Backend.withinLimits_m_joint2Rotation_setValue m a s ha h
  · exact h

theorem Backend.withinLimits_m_joint3Rotation_setValue {α : Type} [LinearOrderedField α]
    (m : MathOps α) (a : Int) (s : Backend α) (ha : isWithinJointLimits 2 a = true)
    (h : s.WithinLimits) : (s.m_joint3Rotation_setValue m a).WithinLimits := by
  rw [Backend.withinLimits_iff_holders, Backend.holders_m_joint3Rotation_setValue]
  obtain ⟨h1, h2, h3, h4, h5, h6, h7⟩ := h
  exact ⟨_, _, _, _, _, _, _, rfl, h1, h2, ha, h4, h5, h6, h7⟩

theorem Backend.withinLimits_setJoint3Rotation {α : Type} [LinearOrderedField α]
    (m : MathOps α) (a : Int) (s : Backend α) (h : s.WithinLimits) :
    (s.setJoint3Rotation m a).WithinLimits := by
  unfold Backend.setJoint3Rotation
  split_ifs with ha
  · exact Backend.withinLimits_m_joint3Rotation_setValue m a s ha h
  · exact h

theorem Backend.withinLimits_m_joint4Rotation_setValue {α : Type} [LinearOrderedField α]
    (m : MathOps α) (a : Int) (s : Backend α) (ha : isWithinJointLimits 3 a = true)
    (h : s.WithinLimits) : (s.m_joint4Rotation_setValue m a).WithinLimits := by
  rw [Backend.withinLimits_iff_holders, Backend.holders_m_joint4Rotation_setValue]
  obtain ⟨h1, h2, h3, h4, h5, h6, h7⟩ := h
  exact ⟨_, _, _, _, _, _, _, rfl, h1, h2, h3, ha, h5, h6, h7⟩

theorem Backend.withinLimits_setJoint4Rotation {α : Type} [LinearOrderedField α]
    (m : MathOps α) (a : Int) (s : Backend α) (h : s.WithinLimits) :
    (s.setJoint4Rotation m a).WithinLimits := by
  unfold Backend.setJoint4Rotation
  split_ifs with ha
  · exact Backend.withinLimits_m_joint4Rotation_setValue m a s ha h
  · exact h

theorem Backend.withinLimits_m_joint5Rotation_setValue {α : Type} [LinearOrderedField α]
    (m : MathOps α) (a : Int) (s : Backend α) (ha : isWithinJointLimits 4 a = true)
    (h : s.WithinLimits) : (s.m_joint5Rotation_setValue m a).WithinLimits := by
  rw [Backend.withinLimits_iff_holders, Backend.holders_m_joint5Rotation_setValue]
  obtain ⟨h1, h2, h3, h4, h5, h6, h7⟩ := h
  exact ⟨_, _, _, _, _, _, _, rfl, h1, h2, h3, h4, ha, h6, h7⟩

theorem Backend.withinLimits_setJoint5Rotation {α : Type} [LinearOrderedField α]
    (m : MathOps α) (a : Int) (s : Backend α) (h : s.WithinLimits) :
    (s.setJoint5Rotation m a).WithinLimits := by
  unfold Backend.setJoint5Rotation
  split_ifs with ha
  · exact Backend.withinLimits_m_joint5Rotation_setValue m a s ha h
  · exact h

theorem Backend.withinLimits_m_joint6Rotation_setValue {α : Type} [LinearOrderedField α]
    (m : MathOps α) (a : Int) (s : Backend α) (ha : isWithinJointLimits 5 a = true)
    (h : s.WithinLimits) : (s.m_joint6Rotation_setValue m a).WithinLimits := by
  rw [Backend.withinLimits_iff_holders, Backend.holders_m_joint6Rotation_setValue]
  obtain ⟨h1, h2, h3, h4, h5, h6, h7⟩ := h
  exact ⟨_, _, _, _, _, _, _, rfl, h1, h2, h3, h4, h5, ha, h7⟩

theorem Backend.withinLimits_setJoint6Rotation {α : Type} [LinearOrderedField α]
    (m : MathOps α) (a : Int) (s : Backend α) (h : s.WithinLimits) :
    (s.setJoint6Rotation m a).WithinLimits := by
  unfold Backend.setJoint6Rotation
  split_ifs with ha
  · exact Backend.withinLimits_m_joint6Rotation_setValue m a s ha h
  · exact h

theorem qBound_zero_fortyFive (a : Int) : 0 ≤ qBound 0 a 45 ∧ qBound 0 a 45 ≤ 45 := by
  unfold qBound
  omega

theorem Backend.withinLimits_setGripperAngle {α : Type} [LinearOrderedField α]
    (a : Int) (s : Backend α) (h : s.WithinLimits) : (s.setGripperAngle a).WithinLimits := by
  unfold Backend.setGripperAngle
  dsimp only
  rw [Backend.withinLimits_iff_holders, Backend.holders_m_gripperAngle_setValue]
  obtain ⟨h1, h2, h3, h4, h5, h6, -⟩ := h
  exact ⟨_, _, _, _, _, _, _, rfl, h1, h2, h3, h4, h5, h6, qBound_zero_fortyFive a⟩

theorem Backend.withinLimits_setAllJoints {α : Type} [LinearOrderedField α]
    (m : MathOps α) (j1 j2 j3 j4 j5 j6 : Int) (s : Backend α) (h : s.WithinLimits) :
    (s.setAllJoints m j1 j2 j3 j4 j5 j6).WithinLimits := by
  unfold Backend.setAllJoints
  dsimp only
  split_ifs
  · exact Backend.withinLimits_setJoint6Rotation m j6 _
      (Backend.withinLimits_setJoint5Rotation m j5 _
        (Backend.withinLimits_setJoint4Rotation m j4 _
          (Backend.withinLimits_setJoint3Rotation m j3 _
            (Backend.withinLimits_setJoint2Rotation m j2 _
              (Backend.withinLimits_setJoint1Rotation m j1 s h)))))
  · exact h

theorem Backend.withinLimits_emit {α : Type} [LinearOrderedField α]
    (sig : Signal) (s : Backend α) (h : s.WithinLimits) : (s.emit sig).WithinLimits := h

/-- One public operation keeps the invariant. -/
theorem Op.run_withinLimits {α : Type} [LinearOrderedField α] (m : MathOps α) (s : Backend α)
    (op : Op) (h : s.WithinLimits) : (op.run m s).WithinLimits := by
  cases op with
  | setJoint1Rotation a => exact Backend.withinLimits_setJoint1Rotation m a s h
  | setJoint2Rotation a => exact Backend.withinLimits_setJoint2Rotation m a s h
  | setJoint3Rotation a => exact Backend.withinLimits_setJoint3Rotation m a s h
  | setJoint4Rotation a => exact Backend.withinLimits_setJoint4Rotation m a s h
  | setJoint5Rotation a => exact Backend.withinLimits_setJoint5Rotation m a s h
  | setJoint6Rotation a => exact Backend.withinLimits_setJoint6Rotation m a s h
  | setGripperAngle a => exact Backend.withinLimits_setGripperAngle a s h
  | setAllJoints j1 j2 j3 j4 j5 j6 =>
      exact Backend.withinLimits_setAllJoints m j1 j2 j3 j4 j5 j6 s h
  | setJointAnglesSmooth j1 j2 j3 j4 j5 j6 d =>
      exact Backend.withinLimits_setAllJoints m j1 j2 j3 j4 j5 j6 s h
  | moveToHome =>
      exact Backend.withinLimits_setGripperAngle _ _
        (Backend.withinLimits_setAllJoints m _ _ _ _ _ _ s h)
  | moveToPickPosition =>
      exact Backend.withinLimits_setGripperAngle _ _
        (Backend.withinLimits_setAllJoints m _ _ _ _ _ _ s h)
  | moveToRestPosition =>
      exact Backend.withinLimits_setGripperAngle _ _
        (Backend.withinLimits_setAllJoints m _ _ _ _ _ _ s h)
  | moveToServicePosition =>
      exact Backend.withinLimits_setGripperAngle _ _
        (Backend.withinLimits_setAllJoints m _ _ _ _ _ _ s h)
  | openGripper => exact Backend.withinLimits_setGripperAngle _ s h
  | closeGripper => exact Backend.withinLimits_setGripperAngle _ s h
  | stopAllMotion => exact Backend.withinLimits_emit _ s h

/-! ### Whole-arm moves -/

/-- The safety gate in terms of the six numeric ranges. -/
theorem isPositionSafe_iff_ranges (j1 j2 j3 j4 j5 j6 : Int) :
    isPositionSafe j1 j2 j3 j4 j5 j6 = true ↔
      (-180 ≤ j1 ∧ j1 ≤ 180) ∧ (-90 ≤ j2 ∧ j2 ≤ 90) ∧ (-135 ≤ j3 ∧ j3 ≤ 135) ∧
      (-180 ≤ j4 ∧ j4 ≤ 180) ∧ (-90 ≤ j5 ∧ j5 ≤ 90) ∧ (-180 ≤ j6 ∧ j6 ≤ 180) := by
  rw [isPositionSafe_eq_true_iff, isWithinJointLimits_zero, isWithinJointLimits_one,
    isWithinJointLimits_two, isWithinJointLimits_three, isWithinJointLimits_four,
    isWithinJointLimits_five]

/-- A request that passes the gate is the six holder writes in sequence. -/
theorem Backend.setAllJoints_of_safe {α : Type} [LinearOrderedField α] (m : MathOps α)
    (s : Backend α) (j1 j2 j3 j4 j5 j6 : Int) (h : isPositionSafe j1 j2 j3 j4 j5 j6 = true) :
    s.setAllJoints m j1 j2 j3 j4 j5 j6 =
      (((((s.m_joint1Rotation_setValue m j1).m_joint2Rotation_setValue m j2
        ).m_joint3Rotation_setValue m j3).m_joint4Rotation_setValue m j4
        ).m_joint5Rotation_setValue m j5).m_joint6Rotation_setValue m j6 := by
  obtain ⟨h1, h2, h3, h4, h5, h6⟩ := (isPositionSafe_eq_true_iff j1 j2 j3 j4 j5 j6).1 h
  simp [Backend.setAllJoints, h, Backend.setJoint1Rotation, Backend.setJoint2Rotation,
    Backend.setJoint3Rotation, Backend.setJoint4Rotation, Backend.setJoint5Rotation,
    Backend.setJoint6Rotation, h1, h2, h3, h4, h5, h6]

/-- The values after a request that passes the gate. -/
theorem Backend.values_setAllJoints_of_safe {α : Type} [LinearOrderedField α] (m : MathOps α)
    (s : Backend α) (j1 j2 j3 j4 j5 j6 : Int) (h : isPositionSafe j1 j2 j3 j4 j5 j6 = true) :
    (s.setAllJoints m j1 j2 j3 j4 j5 j6).values = [j1, j2, j3, j4, j5, j6, s.gripperAngle] := by
  rw [Backend.setAllJoints_of_safe m s j1 j2 j3 j4 j5 j6 h, Backend.values_eq_map_holders,
    Backend.holders_m_joint6Rotation_setValue, Backend.holders_m_joint5Rotation_setValue,
    Backend.holders_m_joint4Rotation_setValue, Backend.holders_m_joint3Rotation_setValue,
    Backend.holders_m_joint2Rotation_setValue, Backend.holders_m_joint1Rotation_setValue]
  rfl

/-- C1: when at least one of the six requested angles is outside its joint's
limit range, `setAllJoints` returns the state it was given: no joint value is
changed, the gripper value is untouched, and nothing else of the state moves. -/
theorem C1_setAllJoints_out_of_range_unchanged {α : Type} [LinearOrderedField α]
    (m : MathOps α) (s : Backend α) (j1 j2 j3 j4 j5 j6 : Int)
    (h : ¬((-180 ≤ j1 ∧ j1 ≤ 180) ∧ (-90 ≤ j2 ∧ j2 ≤ 90) ∧ (-135 ≤ j3 ∧ j3 ≤ 135) ∧
      (-180 ≤ j4 ∧ j4 ≤ 180) ∧ (-90 ≤ j5 ∧ j5 ≤ 90) ∧ (-180 ≤ j6 ∧ j6 ≤ 180))) :
    s.setAllJoints m j1 j2 j3 j4 j5 j6 = s ∧
    (s.setAllJoints m j1 j2 j3 j4 j5 j6).values = s.values := by
  have hs : s.setAllJoints m j1 j2 j3 j4 j5 j6 = s := by
    unfold Backend.setAllJoints
    rw [if_neg]
    rw [isPositionSafe_iff_ranges]
    exact h
  exact ⟨hs, by rw [hs]⟩

/-- C1 on the constructed arm with the request (10, 91, 0, 0, 0, 0): joint 1 is
in range, joint 2 is one degree past its limit. -/
theorem C1_setAllJoints_out_of_range_unchanged_witness :
    ¬(((-180 : Int) ≤ 10 ∧ (10 : Int) ≤ 180) ∧ ((-90 : Int) ≤ 91 ∧ (91 : Int) ≤ 90) ∧
      ((-135 : Int) ≤ 0 ∧ (0 : Int) ≤ 135) ∧ ((-180 : Int) ≤ 0 ∧ (0 : Int) ≤ 180) ∧
      ((-90 : Int) ≤ 0 ∧ (0 : Int) ≤ 90) ∧ ((-180 : Int) ≤ 0 ∧ (0 : Int) ≤ 180)) ∧
    (Backend.new (⟨Real.pi, Real.cos, Real.sin, Real.sqrt⟩ : MathOps ℝ)).setAllJoints (⟨Real.pi, Real.cos, Real.sin, Real.sqrt⟩ : MathOps ℝ) 10 91 0 0 0 0 = Backend.new (⟨Real.pi, Real.cos, Real.sin, Real.sqrt⟩ : MathOps ℝ) ∧
    ((Backend.new (⟨Real.pi, Real.cos, Real.sin, Real.sqrt⟩ : MathOps ℝ)).setAllJoints (⟨Real.pi, Real.cos, Real.sin, Real.sqrt⟩ : MathOps ℝ) 10 91 0 0 0 0).values =
      (Backend.new (⟨Real.pi, Real.cos, Real.sin, Real.sqrt⟩ : MathOps ℝ)).values :=
  ⟨by decide,
   C1_setAllJoints_out_of_range_unchanged (⟨Real.pi, Real.cos, Real.sin, Real.sqrt⟩ : MathOps ℝ) (Backend.new (⟨Real.pi, Real.cos, Real.sin, Real.sqrt⟩ : MathOps ℝ)) 10 91 0 0 0 0
     (by decide)⟩

/-- C2: when every requested angle is within its joint's limit range,
`setAllJoints` leaves joint `k` at the requested `jk` for all six joints (a
holder write being taken as committed) and the gripper where it was; each of the
six inner limit checks accepts its value, so that the call is exactly the six
holder writes in sequence. -/
theorem C2_setAllJoints_in_range_applied {α : Type} [LinearOrderedField α]
    (m : MathOps α) (s : Backend α) (j1 j2 j3 j4 j5 j6 : Int)
    (h1 : -180 ≤ j1 ∧ j1 ≤ 180) (h2 : -90 ≤ j2 ∧ j2 ≤ 90) (h3 : -135 ≤ j3 ∧ j3 ≤ 135)
    (h4 : -180 ≤ j4 ∧ j4 ≤ 180) (h5 : -90 ≤ j5 ∧ j5 ≤ 90) (h6 : -180 ≤ j6 ∧ j6 ≤ 180) :
    (s.setAllJoints m j1 j2 j3 j4 j5 j6).values = [j1, j2, j3, j4, j5, j6, s.gripperAngle] ∧
    (isWithinJointLimits 0 j1 = true ∧ isWithinJointLimits 1 j2 = true ∧
      isWithinJointLimits 2 j3 = true ∧ isWithinJointLimits 3 j4 = true ∧
      isWithinJointLimits 4 j5 = true ∧ isWithinJointLimits 5 j6 = true) ∧
    s.setAllJoints m j1 j2 j3 j4 j5 j6 =
      (((((s.m_joint1Rotation_setValue m j1).m_joint2Rotation_setValue m j2
        ).m_joint3Rotation_setValue m j3).m_joint4Rotation_setValue m j4
        ).m_joint5Rotation_setValue m j5).m_joint6Rotation_setValue m j6 := by
  have hsafe : isPositionSafe j1 j2 j3 j4 j5 j6 = true :=
    (isPositionSafe_iff_ranges j1 j2 j3 j4 j5 j6).2 ⟨h1, h2, h3, h4, h5, h6⟩
  exact ⟨Backend.values_setAllJoints_of_safe m s j1 j2 j3 j4 j5 j6 hsafe,
    (isPositionSafe_eq_true_iff j1 j2 j3 j4 j5 j6).1 hsafe,
    Backend.setAllJoints_of_safe m s j1 j2 j3 j4 j5 j6 hsafe⟩

/-- C2 on the constructed arm with the limit-edge request (180, -90, 135, -180, 90, 0). -/
theorem C2_setAllJoints_in_range_applied_witness :
    ((Backend.new (⟨Real.pi, Real.cos, Real.sin, Real.sqrt⟩ : MathOps ℝ)).setAllJoints (⟨Real.pi, Real.cos, Real.sin, Real.sqrt⟩ : MathOps ℝ) 180 (-90) 135 (-180) 90 0).values =
      [180, -90, 135, -180, 90, 0, 0] :=
  (C2_setAllJoints_in_range_applied (⟨Real.pi, Real.cos, Real.sin, Real.sqrt⟩ : MathOps ℝ) (Backend.new (⟨Real.pi, Real.cos, Real.sin, Real.sqrt⟩ : MathOps ℝ)) 180 (-90) 135 (-180) 90 0
    (by decide) (by decide) (by decide) (by decide) (by decide) (by decide)).1.trans
    (by rw [Backend.gripperAngle_new])

/-! ### The invariant along sequences of public operations -/

/-- The invariant in numbers. -/
theorem Backend.withinLimits_iff_ranges {α : Type} [LinearOrderedField α] (s : Backend α) :
    s.WithinLimits ↔
      (-180 ≤ s.joint1Rotation ∧ s.joint1Rotation ≤ 180) ∧
      (-90 ≤ s.joint2Rotation ∧ s.joint2Rotation ≤ 90) ∧
      (-135 ≤ s.joint3Rotation ∧ s.joint3Rotation ≤ 135) ∧
      (-180 ≤ s.joint4Rotation ∧ s.joint4Rotation ≤ 180) ∧
      (-90 ≤ s.joint5Rotation ∧ s.joint5Rotation ≤ 90) ∧
      (-180 ≤ s.joint6Rotation ∧ s.joint6Rotation ≤ 180) ∧
      (0 ≤ s.gripperAngle ∧ s.gripperAngle ≤ 45) := by
  unfold Backend.WithinLimits
  rw [isWithinJointLimits_zero, isWithinJointLimits_one, isWithinJointLimits_two,
    isWithinJointLimits_three, isWithinJointLimits_four, isWithinJointLimits_five]
  rfl

/-- The constructed arm satisfies the invariant. -/
theorem Backend.withinLimits_new {α : Type} [LinearOrderedField α] (m : MathOps α) :
    (Backend.new m).WithinLimits := by
  rw [Backend.withinLimits_iff_holders, Backend.holders_new]
  exact ⟨_, _, _, _, _, _, _, rfl, by decide⟩

/-- C5: from a state in which every joint value is within its limit range and
the gripper value is in `[0, 45]`, every finite sequence of public operations,
with arbitrary integer arguments, ends in a state with the same property (holder
writes being taken as committed). -/
theorem C5_runOps_preserves_limits {α : Type} [LinearOrderedField α] (m : MathOps α)
    (s : Backend α) (ops : List Op) (h : s.WithinLimits) :
    (runOps m s ops).WithinLimits ∧
    ((-180 ≤ (runOps m s ops).joint1Rotation ∧ (runOps m s ops).joint1Rotation ≤ 180) ∧
      (-90 ≤ (runOps m s ops).joint2Rotation ∧ (runOps m s ops).joint2Rotation ≤ 90) ∧
      (-135 ≤ (runOps m s ops).joint3Rotation ∧ (runOps m s ops).joint3Rotation ≤ 135) ∧
      (-180 ≤ (runOps m s ops).joint4Rotation ∧ (runOps m s ops).joint4Rotation ≤ 180) ∧
      (-90 ≤ (runOps m s ops).joint5Rotation ∧ (runOps m s ops).joint5Rotation ≤ 90) ∧
      (-180 ≤ (runOps m s ops).joint6Rotation ∧ (runOps m s ops).joint6Rotation ≤ 180) ∧
      (0 ≤ (runOps m s ops).gripperAngle ∧ (runOps m s ops).gripperAngle ≤ 45)) := by
  have key : (runOps m s ops).WithinLimits := by
    unfold runOps
    induction ops generalizing s with
    | nil => exact h
    | cons op rest ih => exact ih (op.run m s) (Op.run_withinLimits m s op h)
  exact ⟨key, (Backend.withinLimits_iff_ranges _).1 key⟩

/-- C5 on the constructed arm with a sequence that mixes rejected, clamped and
accepted requests. -/
theorem C5_runOps_preserves_limits_witness :
    (Backend.new (⟨Real.pi, Real.cos, Real.sin, Real.sqrt⟩ : MathOps ℝ)).WithinLimits ∧
    (runOps (⟨Real.pi, Real.cos, Real.sin, Real.sqrt⟩ : MathOps ℝ) (Backend.new (⟨Real.pi, Real.cos, Real.sin, Real.sqrt⟩ : MathOps ℝ))
      [Op.setAllJoints 500 0 0 0 0 0, Op.setJoint2Rotation 91, Op.setGripperAngle 100,
       Op.moveToRestPosition, Op.setJoint3Rotation (-135), Op.stopAllMotion]).WithinLimits :=
  ⟨Backend.withinLimits_new _,
   (C5_runOps_preserves_limits (⟨Real.pi, Real.cos, Real.sin, Real.sqrt⟩ : MathOps ℝ) (Backend.new (⟨Real.pi, Real.cos, Real.sin, Real.sqrt⟩ : MathOps ℝ))
      [Op.setAllJoints 500 0 0 0 0 0, Op.setJoint2Rotation 91, Op.setGripperAngle 100,
       Op.moveToRestPosition, Op.setJoint3Rotation (-135), Op.stopAllMotion]
      (Backend.withinLimits_new _)).1⟩

/-! ### The gripper -/

theorem Backend.values_setGripperAngle {α : Type} [LinearOrderedField α] (a : Int)
    (s : Backend α) : (s.setGripperAngle a).values = s.values.set 6 (qBound 0 a 45) := by
  unfold Backend.setGripperAngle
  dsimp only
  rw [Backend.values_eq_map_holders, Backend.holders_m_gripperAngle_setValue]
  rfl

theorem Backend.gripperAngle_setGripperAngle {α : Type} [LinearOrderedField α] (a : Int)
    (s : Backend α) : (s.setGripperAngle a).gripperAngle = qBound 0 a 45 := by
  have h := Backend.values_setGripperAngle a s
  simp only [Backend.values, List.set, List.cons.injEq] at h
  exact h.2.2.2.2.2.2.1

/-- C6: for every integer `a`, after `setGripperAngle a` the gripper value is
`max 0 (min a 45)`: below 0 gives 0, above 45 gives 45, a value in `[0, 45]` is
stored as it is (so -10 gives 0, 100 gives 45 and 20 gives 20); the six joint
values are the ones before the call. -/
theorem C6_setGripperAngle_clamps {α : Type} [LinearOrderedField α] (a : Int) (s : Backend α) :
    (s.setGripperAngle a).gripperAngle = max 0 (min a 45) ∧
    (a < 0 → (s.setGripperAngle a).gripperAngle = 0) ∧
    (45 < a → (s.setGripperAngle a).gripperAngle = 45) ∧
    (0 ≤ a ∧ a ≤ 45 → (s.setGripperAngle a).gripperAngle = a) ∧
    (s.setGripperAngle (-10)).gripperAngle = 0 ∧
    (s.setGripperAngle 100).gripperAngle = 45 ∧
    (s.setGripperAngle 20).gripperAngle = 20 ∧
    (s.setGripperAngle a).values.take 6 = s.values.take 6 ∧
    (s.setGripperAngle a).values = s.values.set 6 (max 0 (min a 45)) := by
  have hq : ∀ b : Int, qBound 0 b 45 = max 0 (min b 45) := by
    intro b
    unfold qBound
    rw [min_comm]
  refine ⟨?_, ?_, ?_, ?_, ?_, ?_, ?_, ?_, ?_⟩
  · rw [Backend.gripperAngle_setGripperAngle, hq]
  · intro h
    rw [Backend.gripperAngle_setGripperAngle, hq]
    omega
  · intro h
    rw [Backend.gripperAngle_setGripperAngle, hq]
    omega
  · intro h
    rw [Backend.gripperAngle_setGripperAngle, hq]
    omega
  · rw [Backend.gripperAngle_setGripperAngle]; rfl
  · rw [Backend.gripperAngle_setGripperAngle]; rfl
  · rw [Backend.gripperAngle_setGripperAngle]; rfl
  · rw [Backend.values_setGripperAngle]; rfl
  · rw [Backend.values_setGripperAngle, hq]

/-! ### Single-joint setters -/

theorem Backend.setJoint1Rotation_out_of_range {α : Type} [LinearOrderedField α]
    (m : MathOps α) (a : Int) (s : Backend α) (h : ¬(-180 ≤ a ∧ a ≤ 180)) :
    s.setJoint1Rotation m a = s := by
  unfold Backend.setJoint1Rotation
  rw [if_neg]
  rw [isWithinJointLimits_zero]
  exact h

theorem Backend.values_setJoint1Rotation_in_range {α : Type} [LinearOrderedField α]
    (m : MathOps α) (a : Int) (s : Backend α) (h : -180 ≤ a ∧ a ≤ 180) :
    (s.setJoint1Rotation m a).values = s.values.set 0 a := by
  unfold Backend.setJoint1Rotation
  rw [if_pos ((isWithinJointLimits_zero a).2 h), Backend.values_eq_map_holders,
    Backend.holders_m_joint1Rotation_setValue]
  rfl

theorem Backend.setJoint2Rotation_out_of_range {α : Type} [LinearOrderedField α]
    (m : MathOps α) (a : Int) (s : Backend α) (h : ¬(-90 ≤ a ∧ a ≤ 90)) :
    s.setJoint2Rotation m a = s := by
  unfold Backend.setJoint2Rotation
  rw [if_neg]
  rw [isWithinJointLimits_one]
  exact h

theorem Backend.values_setJoint2Rotation_in_range {α : Type} [LinearOrderedField α]
    (m : MathOps α) (a : Int) (s : Backend α) (h : -90 ≤ a ∧ a ≤ 90) :
    (s.setJoint2Rotation m a).values = s.values.set 1 a := by
  unfold Backend.setJoint2Rotation
  rw [if_pos ((isWithinJointLimits_one a).2 h), Backend.values_eq_map_holders,
    Backend.holders_m_joint2Rotation_setValue]
  rfl

theorem Backend.setJoint3Rotation_out_of_range {α : Type} [LinearOrderedField α]
    (m : MathOps α) (a : Int) (s : Backend α) (h : ¬(-135 ≤ a ∧ a ≤ 135)) :
    s.setJoint3Rotation m a = s := by
  unfold Backend.setJoint3Rotation
  rw [if_neg]
  rw [isWithinJointLimits_two]
  exact h

theorem Backend.values_setJoint3Rotation_in_range {α : Type} [LinearOrderedField α]
    (m : MathOps α) (a : Int) (s : Backend α) (h : -135 ≤ a ∧ a ≤ 135) :
    (s.setJoint3Rotation m a).values = s.values.set 2 a := by
  unfold Backend.setJoint3Rotation
  rw [if_pos ((isWithinJointLimits_two a).2 h), Backend.values_eq_map_holders,
    Backend.holders_m_joint3Rotation_setValue]
  rfl

theorem Backend.setJoint4Rotation_out_of_range {α : Type} [LinearOrderedField α]
    (m : MathOps α) (a : Int) (s : Backend α) (h : ¬(-180 ≤ a ∧ a ≤ 180)) :
    s.setJoint4Rotation m a = s := by
  unfold Backend.setJoint4Rotation
  rw [if_neg]
  rw [isWithinJointLimits_three]
  exact h

theorem Backend.values_setJoint4Rotation_in_range {α : Type} [LinearOrderedField α]
    (m : MathOps α) (a : Int) (s : Backend α) (h : -180 ≤ a ∧ a ≤ 180) :
    (s.setJoint4Rotation m a).values = s.values.set 3 a := by
  unfold Backend.setJoint4Rotation
  rw [if_pos ((isWithinJointLimits_three a).2 h), Backend.values_eq_map_holders,
    Backend.holders_m_joint4Rotation_setValue]
  rfl

theorem Backend.setJoint5Rotation_out_of_range {α : Type} [LinearOrderedField α]
    (m : MathOps α) (a : Int) (s : Backend α) (h : ¬(-90 ≤ a ∧ a ≤ 90)) :
    s.setJoint5Rotation m a = s := by
  unfold Backend.setJoint5Rotation
  rw [if_neg]
  rw [isWithinJointLimits_four]
  exact h

theorem Backend.values_setJoint5Rotation_in_range {α : Type} [LinearOrderedField α]
    (m : MathOps α) (a : Int) (s : Backend α) (h : -90 ≤ a ∧ a ≤ 90) :
    (s.setJoint5Rotation m a).values = s.values.set 4 a := by
  unfold Backend.setJoint5Rotation
  rw [if_pos ((isWithinJointLimits_four a).2 h), Backend.values_eq_map_holders,
    Backend.holders_m_joint5Rotation_setValue]
  rfl

theorem Backend.setJoint6Rotation_out_of_range {α : Type} [LinearOrderedField α]
    (m : MathOps α) (a : Int) (s : Backend α) (h : ¬(-180 ≤ a ∧ a ≤ 180)) :
    s.setJoint6Rotation m a = s := by
  unfold Backend.setJoint6Rotation
  rw [if_neg]
  rw [isWithinJointLimits_five]
  exact h

theorem Backend.values_setJoint6Rotation_in_range {α : Type} [LinearOrderedField α]
    (m : MathOps α) (a : Int) (s : Backend α) (h : -180 ≤ a ∧ a ≤ 180) :
    (s.setJoint6Rotation m a).values = s.values.set 5 a := by
  unfold Backend.setJoint6Rotation
  rw [if_pos ((isWithinJointLimits_five a).2 h), Backend.values_eq_map_holders,
    Backend.holders_m_joint6Rotation_setValue]
  rfl

/-- C7: for each of the six single-joint setters and every integer angle `a`: if
`a` is outside the joint's limit range the setter returns the state it was
given (so no value changes and no signal is emitted); if `a` is within range the
joint's value becomes `a` while the other five joint values and the gripper
value stay as they were. -/
theorem C7_single_joint_setters {α : Type} [LinearOrderedField α] (m : MathOps α) (a : Int)
    (s : Backend α) :
    ((¬(-180 ≤ a ∧ a ≤ 180) →
        s.setJoint1Rotation m a = s ∧ (s.setJoint1Rotation m a).emitted = s.emitted) ∧
      (-180 ≤ a ∧ a ≤ 180 → (s.setJoint1Rotation m a).values = s.values.set 0 a)) ∧
    ((¬(-90 ≤ a ∧ a ≤ 90) →
        s.setJoint2Rotation m a = s ∧ (s.setJoint2Rotation m a).emitted = s.emitted) ∧
      (-90 ≤ a ∧ a ≤ 90 → (s.setJoint2Rotation m a).values = s.values.set 1 a)) ∧
    ((¬(-135 ≤ a ∧ a ≤ 135) →
        s.setJoint3Rotation m a = s ∧ (s.setJoint3Rotation m a).emitted = s.emitted) ∧
      (-135 ≤ a ∧ a ≤ 135 → (s.setJoint3Rotation m a).values = s.values.set 2 a)) ∧
    ((¬(-180 ≤ a ∧ a ≤ 180) →
        s.setJoint4Rotation m a = s ∧ (s.setJoint4Rotation m a).emitted = s.emitted) ∧
      (-180 ≤ a ∧ a ≤ 180 → (s.setJoint4Rotation m a).values = s.values.set 3 a)) ∧
    ((¬(-90 ≤ a ∧ a ≤ 90) →
        s.setJoint5Rotation m a = s ∧ (s.setJoint5Rotation m a).emitted = s.emitted) ∧
      (-90 ≤ a ∧ a ≤ 90 → (s.setJoint5Rotation m a).values = s.values.set 4 a)) ∧
    ((¬(-180 ≤ a ∧ a ≤ 180) →
        s.setJoint6Rotation m a = s ∧ (s.setJoint6Rotation m a).emitted = s.emitted) ∧
      (-180 ≤ a ∧ a ≤ 180 → (s.setJoint6Rotation m a).values = s.values.set 5 a)) := by
  refine ⟨⟨?_, ?_⟩, ⟨?_, ?_⟩, ⟨?_, ?_⟩, ⟨?_, ?_⟩, ⟨?_, ?_⟩, ⟨?_, ?_⟩⟩
  · intro h
    rw [Backend.setJoint1Rotation_out_of_range m a s h]
    exact ⟨rfl, rfl⟩
  · exact Backend.values_setJoint1Rotation_in_range m a s
  · intro h
    rw [Backend.setJoint2Rotation_out_of_range m a s h]
    exact ⟨rfl, rfl⟩
  · exact Backend.values_setJoint2Rotation_in_range m a s
  · intro h
    rw [Backend.setJoint3Rotation_out_of_range m a s h]
    exact ⟨rfl, rfl⟩
  · exact Backend.values_setJoint3Rotation_in_range m a s
  · intro h
    rw [Backend.setJoint4Rotation_out_of_range m a s h]
    exact ⟨rfl, rfl⟩
  · exact Backend.values_setJoint4Rotation_in_range m a s
  · intro h
    rw [Backend.setJoint5Rotation_out_of_range m a s h]
    exact ⟨rfl, rfl⟩
  · exact Backend.values_setJoint5Rotation_in_range m a s
  · intro h
    rw [Backend.setJoint6Rotation_out_of_range m a s h]
    exact ⟨rfl, rfl⟩
  · exact Backend.values_setJoint6Rotation_in_range m a s

/-! ### Forward kinematics at the zero configuration -/

/-- The forward-kinematics position of the zero configuration over the reals. -/
theorem forwardKinematicsPosition_zero :
    Backend.forwardKinematicsPosition (⟨Real.pi, Real.cos, Real.sin, Real.sqrt⟩ : MathOps ℝ) 0 0 0 0 0 0 = ⟨0.431, 0.196, 0⟩ := by
  simp only [Backend.forwardKinematicsPosition, qDegreesToRadians, Int.cast_zero, zero_mul,
    add_zero, Real.cos_zero, Real.sin_zero, mul_zero, mul_one, one_mul, QVector3D.mk.injEq]
  norm_num

/-- C8, as the claim states it, fails: with all six joint angles 0 the x
coordinate of the forward-kinematics position is not 0. -/
theorem C8_zero_configuration_x_ne_zero :
    (Backend.forwardKinematicsPosition (⟨Real.pi, Real.cos, Real.sin, Real.sqrt⟩ : MathOps ℝ) 0 0 0 0 0 0).x ≠ 0 := by
  rw [forwardKinematicsPosition_zero]
  norm_num

/-- C8, amended: with all six joint angles 0 the forward-kinematics formula over
exact real arithmetic gives `x = 0.173 + 0.089 + 0.169 = 0.431`, `z = 0` and
`y = 0.084 + 0.038 + 0.038 + 0.036 = 0.196`. -/
theorem C8_zero_configuration_position :
    (Backend.forwardKinematicsPosition (⟨Real.pi, Real.cos, Real.sin, Real.sqrt⟩ : MathOps ℝ) 0 0 0 0 0 0).x = 0.173 + 0.089 + 0.169 ∧
    (Backend.forwardKinematicsPosition (⟨Real.pi, Real.cos, Real.sin, Real.sqrt⟩ : MathOps ℝ) 0 0 0 0 0 0).x = 0.431 ∧
    (Backend.forwardKinematicsPosition (⟨Real.pi, Real.cos, Real.sin, Real.sqrt⟩ : MathOps ℝ) 0 0 0 0 0 0).z = 0 ∧
    (Backend.forwardKinematicsPosition (⟨Real.pi, Real.cos, Real.sin, Real.sqrt⟩ : MathOps ℝ) 0 0 0 0 0 0).y = 0.084 + 0.038 + 0.038 + 0.036 ∧
    (Backend.forwardKinematicsPosition (⟨Real.pi, Real.cos, Real.sin, Real.sqrt⟩ : MathOps ℝ) 0 0 0 0 0 0).y = 0.196 := by
  rw [forwardKinematicsPosition_zero]
  norm_num

/-! ### The collision heuristics -/

/-- The second clause of the self-collision rule never holds. -/
theorem selfCollision_second_clause_false (j1 j2 : Int) :
    (decide (j1 ≠ 0) && decide (|j2| < -70)) = false := by
  have h : ¬ (|j2| < -70) := by
    have := abs_nonneg j2
    omega
  simp [h]

theorem Backend.selfCollisionRule_eq_true_iff (j1 j2 j3 : Int) :
    Backend.selfCollisionRule j1 j2 j3 = true ↔ 60 < |j2| ∧ 100 < |j3| := by
  unfold Backend.selfCollisionRule
  rw [selfCollision_second_clause_false]
  simp

/-- C9: in every state the second clause of `checkSelfCollision` (joint 1 not 0
and `abs(joint2) < -70`) is false, so `checkSelfCollision` is true exactly when
`|joint2| > 60` and `|joint3| > 100`; a state with joints 1 to 3 at (10, -80, 0)
is reported as no self-collision. -/
theorem C9_checkSelfCollision_second_clause_dead {α : Type} [LinearOrderedField α]
    (s : Backend α) :
    (decide (s.joint1Rotation ≠ 0) && decide (|s.joint2Rotation| < -70)) = false ∧
    (s.checkSelfCollision = true ↔ 60 < |s.joint2Rotation| ∧ 100 < |s.joint3Rotation|) ∧
    (s.joint1Rotation = 10 ∧ s.joint2Rotation = -80 ∧ s.joint3Rotation = 0 →
      s.checkSelfCollision = false) ∧
    Backend.selfCollisionRule 10 (-80) 0 = false := by
  refine ⟨selfCollision_second_clause_false _ _, Backend.selfCollisionRule_eq_true_iff _ _ _,
    ?_, by decide⟩
  rintro ⟨h1, h2, h3⟩
  unfold Backend.checkSelfCollision
  rw [h1, h2, h3]
  decide

/-- The value computed by `detectCollision` is what it stores. -/
theorem Backend.m_isCollision_detectCollision {α : Type} [LinearOrderedField α]
    (m : MathOps α) (s : Backend α) :
    (s.detectCollision m).m_isCollision = s.collisionValue m := by
  unfold Backend.detectCollision
  dsimp only
  split_ifs with h hc
  · rfl
  · rfl
  · exact (by simpa using h : s.collisionValue m = s.m_isCollision).symm

/-- The four placeholders drop out of the collision value. -/
theorem Backend.collisionValue_eq {α : Type} [LinearOrderedField α] (m : MathOps α)
    (s : Backend α) :
    s.collisionValue m = (s.checkSelfCollision || s.checkWorkspaceLimits m) := by
  simp [Backend.collisionValue, Backend.checkBaseCollisions, Backend.checkArmSegmentCollisions,
    Backend.checkWristCollisions, Backend.checkGripperCollisions]

/-- The workspace check over the reals compares the Euclidean norm with 1.2. -/
theorem Backend.checkWorkspaceLimits_real (s : Backend ℝ) :
    s.checkWorkspaceLimits (⟨Real.pi, Real.cos, Real.sin, Real.sqrt⟩ : MathOps ℝ) = true ↔
      1.2 < Real.sqrt (s.m_endEffectorPosition.x ^ 2 + s.m_endEffectorPosition.y ^ 2 +
        s.m_endEffectorPosition.z ^ 2) := by
  simp only [Backend.checkWorkspaceLimits, Backend.endEffectorPosition, QVector3D.length,
    Backend.workspaceRadius, decide_eq_true_eq, gt_iff_lt, pow_two]

/-- C10: for every state, after `detectCollision` the collision flag is
`checkSelfCollision` of the current joints OR (Euclidean norm of the stored
end-effector position > 1.2).  A stored position of norm above 1.2 makes the
flag true; a norm of at most 1.2 with a false self-collision heuristic makes it
false; the four placeholder checks are false. -/
theorem C10_detectCollision_flag (s : Backend ℝ) :
    ((s.detectCollision (⟨Real.pi, Real.cos, Real.sin, Real.sqrt⟩ : MathOps ℝ)).hasCollision = true ↔
      (s.checkSelfCollision = true ∨
        1.2 < Real.sqrt (s.m_endEffectorPosition.x ^ 2 + s.m_endEffectorPosition.y ^ 2 +
          s.m_endEffectorPosition.z ^ 2))) ∧
    (1.2 < Real.sqrt (s.m_endEffectorPosition.x ^ 2 + s.m_endEffectorPosition.y ^ 2 +
        s.m_endEffectorPosition.z ^ 2) →
      (s.detectCollision (⟨Real.pi, Real.cos, Real.sin, Real.sqrt⟩ : MathOps ℝ)).hasCollision = true) ∧
    (Real.sqrt (s.m_endEffectorPosition.x ^ 2 + s.m_endEffectorPosition.y ^ 2 +
        s.m_endEffectorPosition.z ^ 2) ≤ 1.2 ∧ s.checkSelfCollision = false →
      (s.detectCollision (⟨Real.pi, Real.cos, Real.sin, Real.sqrt⟩ : MathOps ℝ)).hasCollision = false) ∧
    (s.detectCollision (⟨Real.pi, Real.cos, Real.sin, Real.sqrt⟩ : MathOps ℝ)).m_endEffectorPosition = s.m_endEffectorPosition ∧
    (s.checkBaseCollisions = false ∧ s.checkArmSegmentCollisions = false ∧
      s.checkWristCollisions = false ∧ s.checkGripperCollisions = false) := by
  have key : (s.detectCollision (⟨Real.pi, Real.cos, Real.sin, Real.sqrt⟩ : MathOps ℝ)).hasCollision = true ↔
      (s.checkSelfCollision = true ∨
        1.2 < Real.sqrt (s.m_endEffectorPosition.x ^ 2 + s.m_endEffectorPosition.y ^ 2 +
          s.m_endEffectorPosition.z ^ 2)) := by
    unfold Backend.hasCollision
    rw [Backend.m_isCollision_detectCollision, Backend.collisionValue_eq, Bool.or_eq_true,
      Backend.checkWorkspaceLimits_real]
  refine ⟨key, fun h => key.2 (Or.inr h), ?_, ?_, ⟨rfl, rfl, rfl, rfl⟩⟩
  · rintro ⟨hn, hs⟩
    rw [← Bool.not_eq_true, key]
    rintro (h | h)
    · rw [hs] at h
      exact Bool.false_ne_true h
    · exact absurd h (not_lt.2 hn)
  · unfold Backend.detectCollision
    dsimp only
    split_ifs <;> rfl

/-! ### Events of `detectCollision` -/

/-- The collision value reads only the holders and the stored position, which
`detectCollision` leaves alone. -/
theorem Backend.collisionValue_detectCollision {α : Type} [LinearOrderedField α]
    (m : MathOps α) (s : Backend α) :
    (s.detectCollision m).collisionValue m = s.collisionValue m := by
  unfold Backend.detectCollision
  dsimp only
  split_ifs <;> rfl

/-- When the computed value equals the flag, `detectCollision` does nothing. -/
theorem Backend.detectCollision_of_eq {α : Type} [LinearOrderedField α]
    (m : MathOps α) (s : Backend α) (h : s.collisionValue m = s.m_isCollision) :
    s.detectCollision m = s := by
  unfold Backend.detectCollision
  dsimp only
  rw [if_neg]
  simp [h]

/-- C11: one run of `detectCollision` emits `hasCollisionChanged` and then one
`emergencyStop` when the flag goes from false to true, only `hasCollisionChanged`
when it goes from true to false, and returns the state as it was (nothing
emitted, flag unchanged) when the computed value equals the flag; a second run
right after the first changes nothing and so emits nothing. -/
theorem C11_detectCollision_events {α : Type} [LinearOrderedField α] (m : MathOps α)
    (s : Backend α) :
    (s.m_isCollision = false ∧ s.collisionValue m = true →
      (s.detectCollision m).m_isCollision = true ∧
      (s.detectCollision m).emitted =
        s.emitted ++ [Signal.hasCollisionChanged, Signal.emergencyStop]) ∧
    (s.m_isCollision = true ∧ s.collisionValue m = false →
      (s.detectCollision m).m_isCollision = false ∧
      (s.detectCollision m).emitted = s.emitted ++ [Signal.hasCollisionChanged]) ∧
    (s.collisionValue m = s.m_isCollision →
      s.detectCollision m = s ∧ (s.detectCollision m).emitted = s.emitted ∧
      (s.detectCollision m).m_isCollision = s.m_isCollision) ∧
    (s.detectCollision m).detectCollision m = s.detectCollision m ∧
    ((s.detectCollision m).detectCollision m).emitted = (s.detectCollision m).emitted := by
  have h2 : (s.detectCollision m).detectCollision m = s.detectCollision m := by
    apply Backend.detectCollision_of_eq
    rw [Backend.collisionValue_detectCollision, Backend.m_isCollision_detectCollision]
  refine ⟨?_, ?_, ?_, h2, by rw [h2]⟩
  · rintro ⟨hf, hc⟩
    simp [Backend.detectCollision, hf, hc, Backend.emit]
  · rintro ⟨hf, hc⟩
    simp [Backend.detectCollision, hf, hc, Backend.emit]
  · intro h
    rw [Backend.detectCollision_of_eq m s h]
    exact ⟨rfl, rfl, rfl⟩

/-! ### Events of `updateMovingState` -/

theorem Backend.isMoving_updateMovingState {α : Type} [LinearOrderedField α] (s : Backend α) :
    s.updateMovingState.isMoving = s.isMoving := by
  unfold Backend.updateMovingState
  dsimp only
  split_ifs <;> rfl

theorem Backend.emitted_updateMovingState_idle {α : Type} [LinearOrderedField α]
    (s : Backend α) (h : s.isMoving = false) :
    s.updateMovingState.emitted =
      s.emitted ++ [Signal.positionReached, Signal.isMovingChanged] := by
  simp [Backend.updateMovingState, h, Backend.emit]

theorem Backend.emitted_updateMovingState_moving {α : Type} [LinearOrderedField α]
    (s : Backend α) (h : s.isMoving = true) :
    s.updateMovingState.emitted = s.emitted ++ [Signal.isMovingChanged] := by
  simp [Backend.updateMovingState, h, Backend.emit]

/-- Two runs of `updateMovingState` on an idle arm log `positionReached` twice. -/
theorem Backend.emittedCount_updateMovingState_twice {α : Type} [LinearOrderedField α]
    (s : Backend α) (h : s.isMoving = false) :
    s.updateMovingState.updateMovingState.emittedCount Signal.positionReached =
      s.emittedCount Signal.positionReached + 2 := by
  have h1 : s.updateMovingState.isMoving = false := by
    rw [Backend.isMoving_updateMovingState, h]
  unfold Backend.emittedCount
  rw [Backend.emitted_updateMovingState_idle _ h1, Backend.emitted_updateMovingState_idle _ h]
  simp [List.count_append]

theorem Backend.isMoving_new {α : Type} [LinearOrderedField α] (m : MathOps α) :
    (Backend.new m).isMoving = false := by
  have h := Backend.holders_new m
  simp only [Backend.holders, List.replicate, List.cons.injEq] at h
  obtain ⟨h1, h2, h3, h4, h5, h6, h7, -⟩ := h
  simp [Backend.isMoving, h1, h2, h3, h4, h5, h6, h7]

/-- C12, as the claim states it, fails: on the constructed arm, where no holder
is interpolating, two consecutive runs of `updateMovingState` emit
`positionReached` more than once. -/
theorem C12_positionReached_fires_again :
    (Backend.new (⟨Real.pi, Real.cos, Real.sin, Real.sqrt⟩ : MathOps ℝ)).isMoving = false ∧
    ¬((Backend.new (⟨Real.pi, Real.cos, Real.sin, Real.sqrt⟩ : MathOps ℝ)).updateMovingState.updateMovingState.emittedCount
        Signal.positionReached ≤
      (Backend.new (⟨Real.pi, Real.cos, Real.sin, Real.sqrt⟩ : MathOps ℝ)).emittedCount Signal.positionReached + 1) := by
  refine ⟨Backend.isMoving_new _, ?_⟩
  rw [Backend.emittedCount_updateMovingState_twice _ (Backend.isMoving_new _)]
  omega

/-- C12, amended: when no holder is interpolating, every run of
`updateMovingState` emits exactly one `positionReached` (followed by
`isMovingChanged`) and leaves the moving state as it is, so two consecutive runs
emit `positionReached` exactly twice. -/
theorem C12_positionReached_each_run {α : Type} [LinearOrderedField α] (s : Backend α)
    (h : s.isMoving = false) :
    s.updateMovingState.emitted =
      s.emitted ++ [Signal.positionReached, Signal.isMovingChanged] ∧
    s.updateMovingState.isMoving = false ∧
    s.updateMovingState.updateMovingState.emitted =
      s.emitted ++ [Signal.positionReached, Signal.isMovingChanged,
        Signal.positionReached, Signal.isMovingChanged] ∧
    s.updateMovingState.updateMovingState.emittedCount Signal.positionReached =
      s.emittedCount Signal.positionReached + 2 := by
  have h1 : s.updateMovingState.isMoving = false := by
    rw [Backend.isMoving_updateMovingState, h]
  refine ⟨Backend.emitted_updateMovingState_idle s h, h1, ?_,
    Backend.emittedCount_updateMovingState_twice s h⟩
  rw [Backend.emitted_updateMovingState_idle _ h1, Backend.emitted_updateMovingState_idle _ h]
  simp

/-- C12 amended, on the constructed arm. -/
theorem C12_positionReached_each_run_witness :
    (Backend.new (⟨Real.pi, Real.cos, Real.sin, Real.sqrt⟩ : MathOps ℝ)).isMoving = false ∧
    (Backend.new (⟨Real.pi, Real.cos, Real.sin, Real.sqrt⟩ : MathOps ℝ)).updateMovingState.updateMovingState.emittedCount
        Signal.positionReached =
      (Backend.new (⟨Real.pi, Real.cos, Real.sin, Real.sqrt⟩ : MathOps ℝ)).emittedCount Signal.positionReached + 2 :=
  ⟨Backend.isMoving_new _,
   (C12_positionReached_each_run (Backend.new (⟨Real.pi, Real.cos, Real.sin, Real.sqrt⟩ : MathOps ℝ)) (Backend.isMoving_new _)).2.2.2⟩

/-! ### Forward kinematics reads joints 1 to 3 only -/

/-- The position computed from degrees is the formula at the converted angles. -/
theorem forwardKinematicsPosition_eq_formula {α : Type} [LinearOrderedField α] (m : MathOps α)
    (j1 j2 j3 j4 j5 j6 : Int) :
    Backend.forwardKinematicsPosition m j1 j2 j3 j4 j5 j6 =
      forwardKinematicsFormula m (qDegreesToRadians m j1) (qDegreesToRadians m j2)
        (qDegreesToRadians m j3) := rfl

/-- C13: two 6-tuples of joint angles that agree on joints 1, 2 and 3 have the
same forward-kinematics position, whatever their joints 4, 5 and 6 are (for any
arithmetic, in particular over the reals). -/
theorem C13_position_ignores_wrist_joints {α : Type} [LinearOrderedField α] (m : MathOps α)
    (j1 j2 j3 j4 j5 j6 k4 k5 k6 : Int) :
    Backend.forwardKinematicsPosition m j1 j2 j3 j4 j5 j6 =
      Backend.forwardKinematicsPosition m j1 j2 j3 k4 k5 k6 ∧
    Backend.forwardKinematicsPosition (⟨Real.pi, Real.cos, Real.sin, Real.sqrt⟩ : MathOps ℝ) j1 j2 j3 j4 j5 j6 =
      Backend.forwardKinematicsPosition (⟨Real.pi, Real.cos, Real.sin, Real.sqrt⟩ : MathOps ℝ) j1 j2 j3 k4 k5 k6 := by
  constructor
  · rw [forwardKinematicsPosition_eq_formula, forwardKinematicsPosition_eq_formula]
  · rw [forwardKinematicsPosition_eq_formula, forwardKinematicsPosition_eq_formula]

/-! ### The status text -/

/-- C14: the status text is the collision text whenever the collision flag is
set, moving or not; otherwise the moving text when the arm is moving; otherwise
the ready text.  The three texts are pairwise distinct, so the text tells which
of the three cases holds. -/
theorem C14_status_priority {α : Type} [LinearOrderedField α] (s : Backend α) :
    (s.m_isCollision = true → s.status = "⚠️ Collision Detected!") ∧
    (s.m_isCollision = false ∧ s.isMoving = true → s.status = "🔄 Moving...") ∧
    (s.m_isCollision = false ∧ s.isMoving = false → s.status = "✅ Ready") ∧
    ("⚠️ Collision Detected!" ≠ "🔄 Moving..." ∧ "⚠️ Collision Detected!" ≠ "✅ Ready" ∧
      "🔄 Moving..." ≠ "✅ Ready") ∧
    (s.status = "⚠️ Collision Detected!" ↔ s.m_isCollision = true) ∧
    (s.status = "🔄 Moving..." ↔ s.m_isCollision = false ∧ s.isMoving = true) ∧
    (s.status = "✅ Ready" ↔ s.m_isCollision = false ∧ s.isMoving = false) := by
  have d1 : "⚠️ Collision Detected!" ≠ "🔄 Moving..." := by decide
  have d2 : "⚠️ Collision Detected!" ≠ "✅ Ready" := by decide
  have d3 : "🔄 Moving..." ≠ "✅ Ready" := by decide
  unfold Backend.status
  cases hc : s.m_isCollision <;> cases hm : s.isMoving <;>
    simp [d1, d2, d3, d1.symm, d2.symm, d3.symm]

/-! ### The safety gate -/

/-- C15: `isPositionSafe j1 .. j6` is true exactly when `isWithinJointLimits (k-1) jk`
is true for each of the six joints: it is the conjunction of the six limit
checks and nothing else.  It is a function of the six angles alone, it takes no
arm state. -/
theorem C15_isPositionSafe_iff_all_within (j1 j2 j3 j4 j5 j6 : Int) :
    (isPositionSafe j1 j2 j3 j4 j5 j6 = true ↔
      isWithinJointLimits 0 j1 = true ∧ isWithinJointLimits 1 j2 = true ∧
      isWithinJointLimits 2 j3 = true ∧ isWithinJointLimits 3 j4 = true ∧
      isWithinJointLimits 4 j5 = true ∧ isWithinJointLimits 5 j6 = true) ∧
    isPositionSafe j1 j2 j3 j4 j5 j6 =
      (isWithinJointLimits 0 j1 && isWithinJointLimits 1 j2 && isWithinJointLimits 2 j3 &&
        isWithinJointLimits 3 j4 && isWithinJointLimits 4 j5 && isWithinJointLimits 5 j6) := by
  refine ⟨isPositionSafe_eq_true_iff j1 j2 j3 j4 j5 j6, ?_⟩
  unfold isPositionSafe
  cases isWithinJointLimits 0 j1 <;> cases isWithinJointLimits 1 j2 <;>
    cases isWithinJointLimits 2 j3 <;> cases isWithinJointLimits 3 j4 <;>
    cases isWithinJointLimits 4 j5 <;> cases isWithinJointLimits 5 j6 <;> rfl

/-! ### The presets -/

/-- C17: each preset is a literal configuration that passes `isPositionSafe` and
is applied in full.  From any state `moveToHome` leaves joints (0,0,0,0,0,0) and
gripper 0, `moveToPickPosition` joints (0,-45,90,0,-45,0) and gripper 30,
`moveToRestPosition` joints (0,75,-110,0,35,0) and gripper 0, and
`moveToServicePosition` joints (90,0,-90,90,0,0) and gripper 15. -/
theorem C17_presets_applied {α : Type} [LinearOrderedField α] (m : MathOps α) (s : Backend α) :
    (isPositionSafe 0 0 0 0 0 0 = true ∧ (s.moveToHome m).values = [0, 0, 0, 0, 0, 0, 0]) ∧
    (isPositionSafe 0 (-45) 90 0 (-45) 0 = true ∧
      (s.moveToPickPosition m).values = [0, -45, 90, 0, -45, 0, 30]) ∧
    (isPositionSafe 0 75 (-110) 0 35 0 = true ∧
      (s.moveToRestPosition m).values = [0, 75, -110, 0, 35, 0, 0]) ∧
    (isPositionSafe 90 0 (-90) 90 0 0 = true ∧
      (s.moveToServicePosition m).values = [90, 0, -90, 90, 0, 0, 15]) := by
  refine ⟨⟨by decide, ?_⟩, ⟨by decide, ?_⟩, ⟨by decide, ?_⟩, ⟨by decide, ?_⟩⟩
  · unfold Backend.moveToHome
    rw [Backend.values_setGripperAngle,
      Backend.values_setAllJoints_of_safe m s 0 0 0 0 0 0 (by decide)]
    rfl
  · unfold Backend.moveToPickPosition
    rw [Backend.values_setGripperAngle,
      Backend.values_setAllJoints_of_safe m s 0 (-45) 90 0 (-45) 0 (by decide)]
    rfl
  · unfold Backend.moveToRestPosition
    rw [Backend.values_setGripperAngle,
      Backend.values_setAllJoints_of_safe m s 0 75 (-110) 0 35 0 (by decide)]
    rfl
  · unfold Backend.moveToServicePosition
    rw [Backend.values_setGripperAngle,
      Backend.values_setAllJoints_of_safe m s 90 0 (-90) 90 0 0 (by decide)]
    rfl

/-! ### The reach of the forward-kinematics formula -/

/-- The horizontal reach `L2 + L3 cos q2 + L4 cos (q2 + q3)` lies in `[-0.085, 0.431]`. -/
theorem reach_bounds (q2 q3 : ℝ) :
    -0.085 ≤ (0.173 : ℝ) + 0.089 * Real.cos q2 + 0.169 * Real.cos (q2 + q3) ∧
    (0.173 : ℝ) + 0.089 * Real.cos q2 + 0.169 * Real.cos (q2 + q3) ≤ 0.431 := by
  have h1 := Real.cos_le_one q2
  have h2 := Real.neg_one_le_cos q2
  have h3 := Real.cos_le_one (q2 + q3)
  have h4 := Real.neg_one_le_cos (q2 + q3)
  constructor <;> linarith

/-- The coordinates of the formula over the reals, spelled out. -/
theorem forwardKinematicsFormula_real (q1 q2 q3 : ℝ) :
    forwardKinematicsFormula (⟨Real.pi, Real.cos, Real.sin, Real.sqrt⟩ : MathOps ℝ) q1 q2 q3 =
      ⟨Real.cos q1 * (0.173 + 0.089 * Real.cos q2 + 0.169 * Real.cos (q2 + q3)),
       0.084 + 0.089 * Real.sin q2 + 0.169 * Real.sin (q2 + q3) + 0.038 + 0.038 + 0.036,
       Real.sin q1 * (0.173 + 0.089 * Real.cos q2 + 0.169 * Real.cos (q2 + q3))⟩ := rfl

/-- Bounds on three real numbers shaped like the coordinates of the formula. -/
theorem position_bounds_of_reach (c s A Y : ℝ) (hcs : c ^ 2 + s ^ 2 = 1)
    (hA1 : -0.085 ≤ A) (hA2 : A ≤ 0.431) (hY1 : -0.062 ≤ Y) (hY2 : Y ≤ 0.454) :
    (c * A) ^ 2 + (s * A) ^ 2 ≤ 0.431 ^ 2 ∧ |Y| ≤ 0.454 ∧
    Real.sqrt ((c * A) ^ 2 + Y ^ 2 + (s * A) ^ 2) ≤ 1.2 := by
  have hxz : (c * A) ^ 2 + (s * A) ^ 2 = A ^ 2 := by
    have h : (c * A) ^ 2 + (s * A) ^ 2 = (c ^ 2 + s ^ 2) * A ^ 2 := by ring
    rw [h, hcs, one_mul]
  have hAsq : A ^ 2 ≤ 0.431 ^ 2 := by nlinarith
  have hYsq : Y ^ 2 ≤ 0.454 ^ 2 := by nlinarith
  refine ⟨by rw [hxz]; exact hAsq, abs_le.2 ⟨by linarith, hY2⟩, ?_⟩
  rw [Real.sqrt_le_left (by norm_num)]
  have h : (c * A) ^ 2 + Y ^ 2 + (s * A) ^ 2 = A ^ 2 + Y ^ 2 := by
    rw [← hxz]; ring
  rw [h]
  nlinarith

/-- Bounds on the forward-kinematics formula for all real angles. -/
theorem forwardKinematicsFormula_bounds (q1 q2 q3 : ℝ) :
    (forwardKinematicsFormula (⟨Real.pi, Real.cos, Real.sin, Real.sqrt⟩ : MathOps ℝ) q1 q2 q3).x ^ 2 +
      (forwardKinematicsFormula (⟨Real.pi, Real.cos, Real.sin, Real.sqrt⟩ : MathOps ℝ) q1 q2 q3).z ^ 2 ≤ 0.431 ^ 2 ∧
    |(forwardKinematicsFormula (⟨Real.pi, Real.cos, Real.sin, Real.sqrt⟩ : MathOps ℝ) q1 q2 q3).y| ≤ 0.454 ∧
    Real.sqrt ((forwardKinematicsFormula (⟨Real.pi, Real.cos, Real.sin, Real.sqrt⟩ : MathOps ℝ) q1 q2 q3).x ^ 2 +
      (forwardKinematicsFormula (⟨Real.pi, Real.cos, Real.sin, Real.sqrt⟩ : MathOps ℝ) q1 q2 q3).y ^ 2 +
      (forwardKinematicsFormula (⟨Real.pi, Real.cos, Real.sin, Real.sqrt⟩ : MathOps ℝ) q1 q2 q3).z ^ 2) ≤ 1.2 := by
  obtain ⟨ha, hb⟩ := reach_bounds q2 q3
  have hs1 := Real.sin_le_one q2
  have hs2 := Real.neg_one_le_sin q2
  have hs3 := Real.sin_le_one (q2 + q3)
  have hs4 := Real.neg_one_le_sin (q2 + q3)
  rw [forwardKinematicsFormula_real]
  exact position_bounds_of_reach _ _ _ _ (Real.cos_sq_add_sin_sq q1) ha hb
    (by linarith) (by linarith)

/-- The position stored by `calculateForwardKinematics` is the formula's. -/
theorem Backend.m_endEffectorPosition_calculateForwardKinematics {α : Type}
    [LinearOrderedField α] (m : MathOps α) (s : Backend α) :
    (s.calculateForwardKinematics m).m_endEffectorPosition =
      Backend.forwardKinematicsPosition m s.joint1Rotation s.joint2Rotation s.joint3Rotation
        s.joint4Rotation s.joint5Rotation s.joint6Rotation := by
  unfold Backend.calculateForwardKinematics
  dsimp only
  split_ifs with h
  · rfl
  · exact (not_not.1 h).symm

/-- The workspace check is false on every state whose stored position is a
forward-kinematics position. -/
theorem Backend.checkWorkspaceLimits_of_formula (s : Backend ℝ) (q1 q2 q3 : ℝ)
    (h : s.m_endEffectorPosition = forwardKinematicsFormula (⟨Real.pi, Real.cos, Real.sin, Real.sqrt⟩ : MathOps ℝ) q1 q2 q3) :
    s.checkWorkspaceLimits (⟨Real.pi, Real.cos, Real.sin, Real.sqrt⟩ : MathOps ℝ) = false := by
  rw [← Bool.not_eq_true, Backend.checkWorkspaceLimits_real, h, not_lt]
  exact (forwardKinematicsFormula_bounds q1 q2 q3).2.2

/-- C18: for all real joint angles `q1`, `q2`, `q3` the forward-kinematics
position satisfies `x^2 + z^2 ≤ 0.431^2` and `|y| ≤ 0.454`, so its Euclidean norm
is at most 1.2; the same holds for every integer-degree configuration, inside or
outside the joint limits; and `checkWorkspaceLimits` is false on every state
whose position was produced by `calculateForwardKinematics`. -/
theorem C18_workspace_check_never_fires (q1 q2 q3 : ℝ) (j1 j2 j3 j4 j5 j6 : Int)
    (s : Backend ℝ) :
    ((forwardKinematicsFormula (⟨Real.pi, Real.cos, Real.sin, Real.sqrt⟩ : MathOps ℝ) q1 q2 q3).x ^ 2 +
        (forwardKinematicsFormula (⟨Real.pi, Real.cos, Real.sin, Real.sqrt⟩ : MathOps ℝ) q1 q2 q3).z ^ 2 ≤ 0.431 ^ 2 ∧
      |(forwardKinematicsFormula (⟨Real.pi, Real.cos, Real.sin, Real.sqrt⟩ : MathOps ℝ) q1 q2 q3).y| ≤ 0.454 ∧
      Real.sqrt ((forwardKinematicsFormula (⟨Real.pi, Real.cos, Real.sin, Real.sqrt⟩ : MathOps ℝ) q1 q2 q3).x ^ 2 +
        (forwardKinematicsFormula (⟨Real.pi, Real.cos, Real.sin, Real.sqrt⟩ : MathOps ℝ) q1 q2 q3).y ^ 2 +
        (forwardKinematicsFormula (⟨Real.pi, Real.cos, Real.sin, Real.sqrt⟩ : MathOps ℝ) q1 q2 q3).z ^ 2) ≤ 1.2) ∧
    ((Backend.forwardKinematicsPosition (⟨Real.pi, Real.cos, Real.sin, Real.sqrt⟩ : MathOps ℝ) j1 j2 j3 j4 j5 j6).x ^ 2 +
        (Backend.forwardKinematicsPosition (⟨Real.pi, Real.cos, Real.sin, Real.sqrt⟩ : MathOps ℝ) j1 j2 j3 j4 j5 j6).z ^ 2 ≤ 0.431 ^ 2 ∧
      |(Backend.forwardKinematicsPosition (⟨Real.pi, Real.cos, Real.sin, Real.sqrt⟩ : MathOps ℝ) j1 j2 j3 j4 j5 j6).y| ≤ 0.454 ∧
      (Backend.forwardKinematicsPosition (⟨Real.pi, Real.cos, Real.sin, Real.sqrt⟩ : MathOps ℝ) j1 j2 j3 j4 j5 j6).length (⟨Real.pi, Real.cos, Real.sin, Real.sqrt⟩ : MathOps ℝ) ≤
        Backend.workspaceRadius) ∧
    (s.calculateForwardKinematics (⟨Real.pi, Real.cos, Real.sin, Real.sqrt⟩ : MathOps ℝ)).checkWorkspaceLimits (⟨Real.pi, Real.cos, Real.sin, Real.sqrt⟩ : MathOps ℝ) = false ∧
    (s.updateEndEffectorPosition (⟨Real.pi, Real.cos, Real.sin, Real.sqrt⟩ : MathOps ℝ)).checkWorkspaceLimits (⟨Real.pi, Real.cos, Real.sin, Real.sqrt⟩ : MathOps ℝ) = false ∧
    ((s.updateEndEffectorPosition (⟨Real.pi, Real.cos, Real.sin, Real.sqrt⟩ : MathOps ℝ)).detectCollision (⟨Real.pi, Real.cos, Real.sin, Real.sqrt⟩ : MathOps ℝ)).hasCollision =
      (s.updateEndEffectorPosition (⟨Real.pi, Real.cos, Real.sin, Real.sqrt⟩ : MathOps ℝ)).checkSelfCollision := by
  have hw : (s.calculateForwardKinematics (⟨Real.pi, Real.cos, Real.sin, Real.sqrt⟩ : MathOps ℝ)).checkWorkspaceLimits (⟨Real.pi, Real.cos, Real.sin, Real.sqrt⟩ : MathOps ℝ) = false :=
    Backend.checkWorkspaceLimits_of_formula _ _ _ _
      (Backend.m_endEffectorPosition_calculateForwardKinematics _ s)
  refine ⟨forwardKinematicsFormula_bounds q1 q2 q3, ?_, hw, hw, ?_⟩
  · rw [forwardKinematicsPosition_eq_formula]
    obtain ⟨h1, h2, h3⟩ := forwardKinematicsFormula_bounds
      (qDegreesToRadians (⟨Real.pi, Real.cos, Real.sin, Real.sqrt⟩ : MathOps ℝ) j1) (qDegreesToRadians (⟨Real.pi, Real.cos, Real.sin, Real.sqrt⟩ : MathOps ℝ) j2)
      (qDegreesToRadians (⟨Real.pi, Real.cos, Real.sin, Real.sqrt⟩ : MathOps ℝ) j3)
    refine ⟨h1, h2, ?_⟩
    simpa only [QVector3D.length, Backend.workspaceRadius, pow_two] using h3
  · unfold Backend.hasCollision
    rw [Backend.m_isCollision_detectCollision, Backend.collisionValue_eq]
    unfold Backend.updateEndEffectorPosition
    rw [hw, Bool.or_false]

/-! ### The derived members stay up to date -/

theorem Backend.joints_of_holders_take_eq {α : Type} [LinearOrderedField α] {s t : Backend α}
    (h : t.holders.take 6 = s.holders.take 6) :
    t.joint1Rotation = s.joint1Rotation ∧ t.joint2Rotation = s.joint2Rotation ∧
    t.joint3Rotation = s.joint3Rotation ∧ t.joint4Rotation = s.joint4Rotation ∧
    t.joint5Rotation = s.joint5Rotation ∧ t.joint6Rotation = s.joint6Rotation := by
  simp only [Backend.holders, List.take_succ_cons, List.take_zero, List.cons.injEq,
    and_true] at h
  obtain ⟨h1, h2, h3, h4, h5, h6⟩ := h
  simp [Backend.joint1Rotation, Backend.joint2Rotation, Backend.joint3Rotation,
    Backend.joint4Rotation, Backend.joint5Rotation, Backend.joint6Rotation, h1, h2, h3, h4, h5,
    h6]

/-- Being up to date only reads the six joint holders, the stored position and
the flag. -/
theorem Backend.upToDate_congr {α : Type} [LinearOrderedField α] (m : MathOps α)
    {s t : Backend α} (hh : t.holders.take 6 = s.holders.take 6)
    (hp : t.m_endEffectorPosition = s.m_endEffectorPosition)
    (hf : t.m_isCollision = s.m_isCollision) (h : s.UpToDate m) : t.UpToDate m := by
  obtain ⟨h1, h2, h3, h4, h5, h6⟩ := Backend.joints_of_holders_take_eq hh
  obtain ⟨hpos, hflag⟩ := h
  constructor
  · rw [hp, h1, h2, h3, h4, h5, h6]
    exact hpos
  · rw [hf, hflag, Backend.collisionValue_eq, Backend.collisionValue_eq]
    simp only [Backend.checkSelfCollision, Backend.checkWorkspaceLimits,
      Backend.endEffectorPosition, h1, h2, h3, hp]

theorem Backend.frame_updateMovingState {α : Type} [LinearOrderedField α] (s : Backend α) :
    s.updateMovingState.m_endEffectorPosition = s.m_endEffectorPosition ∧
    s.updateMovingState.m_isCollision = s.m_isCollision := by
  unfold Backend.updateMovingState
  dsimp only
  split_ifs <;> exact ⟨rfl, rfl⟩

theorem Backend.m_endEffectorPosition_detectCollision {α : Type} [LinearOrderedField α]
    (m : MathOps α) (s : Backend α) :
    (s.detectCollision m).m_endEffectorPosition = s.m_endEffectorPosition := by
  unfold Backend.detectCollision
  dsimp only
  split_ifs <;> rfl

theorem Backend.m_isCollision_updateEndEffectorPosition {α : Type} [LinearOrderedField α]
    (m : MathOps α) (s : Backend α) :
    (s.updateEndEffectorPosition m).m_isCollision = s.m_isCollision := by
  unfold Backend.updateEndEffectorPosition Backend.calculateForwardKinematics
  dsimp only
  split_ifs <;> rfl

/-- An up-to-date state over the reals has a false workspace check. -/
theorem Backend.checkWorkspaceLimits_of_upToDate (s : Backend ℝ)
    (h : s.UpToDate (⟨Real.pi, Real.cos, Real.sin, Real.sqrt⟩ : MathOps ℝ)) : s.checkWorkspaceLimits (⟨Real.pi, Real.cos, Real.sin, Real.sqrt⟩ : MathOps ℝ) = false :=
  Backend.checkWorkspaceLimits_of_formula s _ _ _ h.1

/-- After the receivers of a joint's `valueChanged` have run, the derived
members are up to date, provided the position stored before was within the
workspace radius. -/
theorem Backend.upToDate_jointValueChanged (sig : Signal) (s : Backend ℝ)
    (hw : s.checkWorkspaceLimits (⟨Real.pi, Real.cos, Real.sin, Real.sqrt⟩ : MathOps ℝ) = false) :
    (s.jointValueChanged (⟨Real.pi, Real.cos, Real.sin, Real.sqrt⟩ : MathOps ℝ) sig).UpToDate (⟨Real.pi, Real.cos, Real.sin, Real.sqrt⟩ : MathOps ℝ) := by
  unfold Backend.jointValueChanged
  dsimp only
  have hh2 : (s.emit sig).updateMovingState.holders = s.holders := by
    rw [Backend.holders_updateMovingState, Backend.holders_emit]
  have hp2 : (s.emit sig).updateMovingState.m_endEffectorPosition = s.m_endEffectorPosition :=
    (Backend.frame_updateMovingState _).1
  generalize (s.emit sig).updateMovingState = s2 at hh2 hp2
  have hh3 : (s2.detectCollision (⟨Real.pi, Real.cos, Real.sin, Real.sqrt⟩ : MathOps ℝ)).holders = s2.holders :=
    Backend.holders_detectCollision _ s2
  have hf3 : (s2.detectCollision (⟨Real.pi, Real.cos, Real.sin, Real.sqrt⟩ : MathOps ℝ)).m_isCollision = s2.checkSelfCollision := by
    have hw2 : s2.checkWorkspaceLimits (⟨Real.pi, Real.cos, Real.sin, Real.sqrt⟩ : MathOps ℝ) = false := by
      simpa only [Backend.checkWorkspaceLimits, Backend.endEffectorPosition, hp2] using hw
    rw [Backend.m_isCollision_detectCollision, Backend.collisionValue_eq, hw2, Bool.or_false]
  have hs3 : (s2.detectCollision (⟨Real.pi, Real.cos, Real.sin, Real.sqrt⟩ : MathOps ℝ)).checkSelfCollision = s2.checkSelfCollision := by
    obtain ⟨h1, h2, h3, -⟩ := Backend.joints_of_holders_take_eq (congrArg (List.take 6) hh3)
    simp only [Backend.checkSelfCollision, h1, h2, h3]
  generalize s2.detectCollision (⟨Real.pi, Real.cos, Real.sin, Real.sqrt⟩ : MathOps ℝ) = s3 at hh3 hf3 hs3
  have hh4 := Backend.holders_updateEndEffectorPosition (⟨Real.pi, Real.cos, Real.sin, Real.sqrt⟩ : MathOps ℝ) s3
  have hp4 := Backend.m_endEffectorPosition_calculateForwardKinematics (⟨Real.pi, Real.cos, Real.sin, Real.sqrt⟩ : MathOps ℝ) s3
  have hf4 := Backend.m_isCollision_updateEndEffectorPosition (⟨Real.pi, Real.cos, Real.sin, Real.sqrt⟩ : MathOps ℝ) s3
  change (s3.updateEndEffectorPosition (⟨Real.pi, Real.cos, Real.sin, Real.sqrt⟩ : MathOps ℝ)).m_endEffectorPosition = _ at hp4
  generalize s3.updateEndEffectorPosition (⟨Real.pi, Real.cos, Real.sin, Real.sqrt⟩ : MathOps ℝ) = s4 at hh4 hp4 hf4
  obtain ⟨h1, h2, h3, h4, h5, h6⟩ := Backend.joints_of_holders_take_eq (congrArg (List.take 6) hh4)
  have hpos : s4.m_endEffectorPosition =
      Backend.forwardKinematicsPosition (⟨Real.pi, Real.cos, Real.sin, Real.sqrt⟩ : MathOps ℝ) s4.joint1Rotation s4.joint2Rotation
        s4.joint3Rotation s4.joint4Rotation s4.joint5Rotation s4.joint6Rotation := by
    rw [hp4, h1, h2, h3, h4, h5, h6]
  refine ⟨hpos, ?_⟩
  rw [Backend.collisionValue_eq, Backend.checkWorkspaceLimits_of_formula s4 _ _ _ hpos,
    Bool.or_false, hf4, hf3, ← hs3]
  simp only [Backend.checkSelfCollision, h1, h2, h3]

theorem Backend.upToDate_m_joint1Rotation_setValue (a : Int) (s : Backend ℝ)
    (h : s.UpToDate (⟨Real.pi, Real.cos, Real.sin, Real.sqrt⟩ : MathOps ℝ)) : (s.m_joint1Rotation_setValue (⟨Real.pi, Real.cos, Real.sin, Real.sqrt⟩ : MathOps ℝ) a).UpToDate (⟨Real.pi, Real.cos, Real.sin, Real.sqrt⟩ : MathOps ℝ) := by
  unfold Backend.m_joint1Rotation_setValue
  dsimp only
  split_ifs with hfire
  · exact Backend.upToDate_jointValueChanged _ _ (Backend.checkWorkspaceLimits_of_upToDate s h)
  · have ha : a = s.m_joint1Rotation.value := by
      simpa [AnimatedParam.setValue] using hfire
    subst ha
    exact h

theorem Backend.upToDate_setJoint1Rotation (a : Int) (s : Backend ℝ)
    (h : s.UpToDate (⟨Real.pi, Real.cos, Real.sin, Real.sqrt⟩ : MathOps ℝ)) : (s.setJoint1Rotation (⟨Real.pi, Real.cos, Real.sin, Real.sqrt⟩ : MathOps ℝ) a).UpToDate (⟨Real.pi, Real.cos, Real.sin, Real.sqrt⟩ : MathOps ℝ) := by
  unfold Backend.setJoint1Rotation
  split_ifs
  · exact Backend.upToDate_m_joint1Rotation_setValue a s h
  · exact h

theorem Backend.upToDate_m_joint2Rotation_setValue (a : Int) (s : Backend ℝ)
    (h : s.UpToDate (⟨Real.pi, Real.cos, Real.sin, Real.sqrt⟩ : MathOps ℝ)) : (s.m_joint2Rotation_setValue (⟨Real.pi, Real.cos, Real.sin, Real.sqrt⟩ : MathOps ℝ) a).UpToDate (⟨Real.pi, Real.cos, Real.sin, Real.sqrt⟩ : MathOps ℝ) := by
  unfold Backend.m_joint2Rotation_setValue
  dsimp only
  split_ifs with hfire
  · exact Backend.upToDate_jointValueChanged _ _ (Backend.checkWorkspaceLimits_of_upToDate s h)
  · have ha : a = s.m_joint2Rotation.value := by
      simpa [AnimatedParam.setValue] using hfire
    subst ha
    exact h

theorem Backend.upToDate_setJoint2Rotation (a : Int) (s : Backend ℝ)
    (h : s.UpToDate (⟨Real.pi, Real.cos, Real.sin, Real.sqrt⟩ : MathOps ℝ)) : (s.setJoint2Rotation (⟨Real.pi, Real.cos, Real.sin, Real.sqrt⟩ : MathOps ℝ) a).UpToDate (⟨Real.pi, Real.cos, Real.sin, Real.sqrt⟩ : MathOps ℝ) := by
  unfold Backend.setJoint2Rotation
  split_ifs
  · exact Backend.upToDate_m_joint2Rotation_setValue a s h
  · exact h

theorem Backend.upToDate_m_joint3Rotation_setValue (a : Int) (s : Backend ℝ)
    (h : s.UpToDate (⟨Real.pi, Real.cos, Real.sin, Real.sqrt⟩ : MathOps ℝ)) : (s.m_joint3Rotation_setValue (⟨Real.pi, Real.cos, Real.sin, Real.sqrt⟩ : MathOps ℝ) a).UpToDate (⟨Real.pi, Real.cos, Real.sin, Real.sqrt⟩ : MathOps ℝ) := by
  unfold Backend.m_joint3Rotation_setValue
  dsimp only
  split_ifs with hfire
  · exact Backend.upToDate_jointValueChanged _ _ (Backend.checkWorkspaceLimits_of_upToDate s h)
  · have ha : a = s.m_joint3Rotation.value := by
      simpa [AnimatedParam.setValue] using hfire
    subst ha
    exact h

theorem Backend.upToDate_setJoint3Rotation (a : Int) (s : Backend ℝ)
    (h : s.UpToDate (⟨Real.pi, Real.cos, Real.sin, Real.sqrt⟩ : MathOps ℝ)) : (s.setJoint3Rotation (⟨Real.pi, Real.cos, Real.sin, Real.sqrt⟩ : MathOps ℝ) a).UpToDate (⟨Real.pi, Real.cos, Real.sin, Real.sqrt⟩ : MathOps ℝ) := by
  unfold Backend.setJoint3Rotation
  split_ifs
  · exact Backend.upToDate_m_joint3Rotation_setValue a s h
  · exact h

theorem Backend.upToDate_m_joint4Rotation_setValue (a : Int) (s : Backend ℝ)
    (h : s.UpToDate (⟨Real.pi, Real.cos, Real.sin, Real.sqrt⟩ : MathOps ℝ)) : (s.m_joint4Rotation_setValue (⟨Real.pi, Real.cos, Real.sin, Real.sqrt⟩ : MathOps ℝ) a).UpToDate (⟨Real.pi, Real.cos, Real.sin, Real.sqrt⟩ : MathOps ℝ) := by
  unfold Backend.m_joint4Rotation_setValue
  dsimp only
  split_ifs with hfire
  · exact Backend.upToDate_jointValueChanged _ _ (Backend.checkWorkspaceLimits_of_upToDate s h)
  · have ha : a = s.m_joint4Rotation.value := by
      simpa [AnimatedParam.setValue] using hfire
    subst ha
    exact h

theorem Backend.upToDate_setJoint4Rotation (a : Int) (s : Backend ℝ)
    (h : s.UpToDate (⟨Real.pi, Real.cos, Real.sin, Real.sqrt⟩ : MathOps ℝ)) : (s.setJoint4Rotation (⟨Real.pi, Real.cos, Real.sin, Real.sqrt⟩ : MathOps ℝ) a).UpToDate (⟨Real.pi, Real.cos, Real.sin, Real.sqrt⟩ : MathOps ℝ) := by
  unfold Backend.setJoint4Rotation
  split_ifs
  · exact Backend.upToDate_m_joint4Rotation_setValue a s h
  · exact h

theorem Backend.upToDate_m_joint5Rotation_setValue (a : Int) (s : Backend ℝ)
    (h : s.UpToDate (⟨Real.pi, Real.cos, Real.sin, Real.sqrt⟩ : MathOps ℝ)) : (s.m_joint5Rotation_setValue (⟨Real.pi, Real.cos, Real.sin, Real.sqrt⟩ : MathOps ℝ) a).UpToDate (⟨Real.pi, Real.cos, Real.sin, Real.sqrt⟩ : MathOps ℝ) := by
  unfold Backend.m_joint5Rotation_setValue
  dsimp only
  split_ifs with hfire
  · exact Backend.upToDate_jointValueChanged _ _ (Backend.checkWorkspaceLimits_of_upToDate s h)
  · have ha : a = s.m_joint5Rotation.value := by
      simpa [AnimatedParam.setValue] using hfire
    subst ha
    exact h

theorem Backend.upToDate_setJoint5Rotation (a : Int) (s : Backend ℝ)
    (h : s.UpToDate (⟨Real.pi, Real.cos, Real.sin, Real.sqrt⟩ : MathOps ℝ)) : (s.setJoint5Rotation (⟨Real.pi, Real.cos, Real.sin, Real.sqrt⟩ : MathOps ℝ) a).UpToDate (⟨Real.pi, Real.cos, Real.sin, Real.sqrt⟩ : MathOps ℝ) := by
  unfold Backend.setJoint5Rotation
  split_ifs
  · exact Backend.upToDate_m_joint5Rotation_setValue a s h
  · exact h

theorem Backend.upToDate_m_joint6Rotation_setValue (a : Int) (s : Backend ℝ)
    (h : s.UpToDate (⟨Real.pi, Real.cos, Real.sin, Real.sqrt⟩ : MathOps ℝ)) : (s.m_joint6Rotation_setValue (⟨Real.pi, Real.cos, Real.sin, Real.sqrt⟩ : MathOps ℝ) a).UpToDate (⟨Real.pi, Real.cos, Real.sin, Real.sqrt⟩ : MathOps ℝ) := by
  unfold Backend.m_joint6Rotation_setValue
  dsimp only
  split_ifs with hfire
  · exact Backend.upToDate_jointValueChanged _ _ (Backend.checkWorkspaceLimits_of_upToDate s h)
  · have ha : a = s.m_joint6Rotation.value := by
      simpa [AnimatedParam.setValue] using hfire
    subst ha
    exact h

theorem Backend.upToDate_setJoint6Rotation (a : Int) (s : Backend ℝ)
    (h : s.UpToDate (⟨Real.pi, Real.cos, Real.sin, Real.sqrt⟩ : MathOps ℝ)) : (s.setJoint6Rotation (⟨Real.pi, Real.cos, Real.sin, Real.sqrt⟩ : MathOps ℝ) a).UpToDate (⟨Real.pi, Real.cos, Real.sin, Real.sqrt⟩ : MathOps ℝ) := by
  unfold Backend.setJoint6Rotation
  split_ifs
  · exact Backend.upToDate_m_joint6Rotation_setValue a s h
  · exact h

theorem Backend.frame_m_gripperAngle_setValue {α : Type} [LinearOrderedField α] (a : Int)
    (s : Backend α) :
    (s.m_gripperAngle_setValue a).m_endEffectorPosition = s.m_endEffectorPosition ∧
    (s.m_gripperAngle_setValue a).m_isCollision = s.m_isCollision := by
  unfold Backend.m_gripperAngle_setValue
  dsimp only
  split_ifs
  · unfold Backend.gripperValueChanged
    exact Backend.frame_updateMovingState _
  · exact ⟨rfl, rfl⟩

theorem Backend.upToDate_setGripperAngle {α : Type} [LinearOrderedField α] (m : MathOps α)
    (a : Int) (s : Backend α) (h : s.UpToDate m) : (s.setGripperAngle a).UpToDate m := by
  unfold Backend.setGripperAngle
  dsimp only
  refine Backend.upToDate_congr m ?_ (Backend.frame_m_gripperAngle_setValue _ s).1
    (Backend.frame_m_gripperAngle_setValue _ s).2 h
  rw [Backend.holders_m_gripperAngle_setValue]
  rfl

theorem Backend.upToDate_setAllJoints (j1 j2 j3 j4 j5 j6 : Int) (s : Backend ℝ)
    (h : s.UpToDate (⟨Real.pi, Real.cos, Real.sin, Real.sqrt⟩ : MathOps ℝ)) :
    (s.setAllJoints (⟨Real.pi, Real.cos, Real.sin, Real.sqrt⟩ : MathOps ℝ) j1 j2 j3 j4 j5 j6).UpToDate (⟨Real.pi, Real.cos, Real.sin, Real.sqrt⟩ : MathOps ℝ) := by
  unfold Backend.setAllJoints
  dsimp only
  split_ifs
  · exact Backend.upToDate_setJoint6Rotation j6 _
      (Backend.upToDate_setJoint5Rotation j5 _
        (Backend.upToDate_setJoint4Rotation j4 _
          (Backend.upToDate_setJoint3Rotation j3 _
            (Backend.upToDate_setJoint2Rotation j2 _
              (Backend.upToDate_setJoint1Rotation j1 s h)))))
  · exact h

/-- One public operation keeps the derived members up to date. -/
theorem Op.run_upToDate (s : Backend ℝ) (op : Op) (h : s.UpToDate (⟨Real.pi, Real.cos, Real.sin, Real.sqrt⟩ : MathOps ℝ)) :
    (op.run (⟨Real.pi, Real.cos, Real.sin, Real.sqrt⟩ : MathOps ℝ) s).UpToDate (⟨Real.pi, Real.cos, Real.sin, Real.sqrt⟩ : MathOps ℝ) := by
  cases op with
  | setJoint1Rotation a => exact Backend.upToDate_setJoint1Rotation a s h
  | setJoint2Rotation a => exact Backend.upToDate_setJoint2Rotation a s h
  | setJoint3Rotation a => exact Backend.upToDate_setJoint3Rotation a s h
  | setJoint4Rotation a => exact Backend.upToDate_setJoint4Rotation a s h
  | setJoint5Rotation a => exact Backend.upToDate_setJoint5Rotation a s h
  | setJoint6Rotation a => exact Backend.upToDate_setJoint6Rotation a s h
  | setGripperAngle a => exact Backend.upToDate_setGripperAngle _ a s h
  | setAllJoints j1 j2 j3 j4 j5 j6 => exact Backend.upToDate_setAllJoints j1 j2 j3 j4 j5 j6 s h
  | setJointAnglesSmooth j1 j2 j3 j4 j5 j6 d =>
      exact Backend.upToDate_setAllJoints j1 j2 j3 j4 j5 j6 s h
  | moveToHome =>
      exact Backend.upToDate_setGripperAngle _ _ _ (Backend.upToDate_setAllJoints _ _ _ _ _ _ s h)
  | moveToPickPosition =>
      exact Backend.upToDate_setGripperAngle _ _ _ (Backend.upToDate_setAllJoints _ _ _ _ _ _ s h)
  | moveToRestPosition =>
      exact Backend.upToDate_setGripperAngle _ _ _ (Backend.upToDate_setAllJoints _ _ _ _ _ _ s h)
  | moveToServicePosition =>
      exact Backend.upToDate_setGripperAngle _ _ _ (Backend.upToDate_setAllJoints _ _ _ _ _ _ s h)
  | openGripper => exact Backend.upToDate_setGripperAngle _ _ s h
  | closeGripper => exact Backend.upToDate_setGripperAngle _ _ s h
  | stopAllMotion => exact h

/-- The constructed arm is up to date. -/
theorem Backend.upToDate_new : (Backend.new (⟨Real.pi, Real.cos, Real.sin, Real.sqrt⟩ : MathOps ℝ)).UpToDate (⟨Real.pi, Real.cos, Real.sin, Real.sqrt⟩ : MathOps ℝ) := by
  have hh : (Backend.new (⟨Real.pi, Real.cos, Real.sin, Real.sqrt⟩ : MathOps ℝ)).holders = (Backend.initialMembers : Backend ℝ).holders :=
    Backend.holders_updateEndEffectorPosition _ _
  have hp : (Backend.new (⟨Real.pi, Real.cos, Real.sin, Real.sqrt⟩ : MathOps ℝ)).m_endEffectorPosition =
      Backend.forwardKinematicsPosition (⟨Real.pi, Real.cos, Real.sin, Real.sqrt⟩ : MathOps ℝ) 0 0 0 0 0 0 :=
    Backend.m_endEffectorPosition_calculateForwardKinematics _ _
  have hf : (Backend.new (⟨Real.pi, Real.cos, Real.sin, Real.sqrt⟩ : MathOps ℝ)).m_isCollision = false :=
    Backend.m_isCollision_updateEndEffectorPosition _ _
  obtain ⟨h1, h2, h3, h4, h5, h6⟩ := Backend.joints_of_holders_take_eq (congrArg (List.take 6) hh)
  have hpos : (Backend.new (⟨Real.pi, Real.cos, Real.sin, Real.sqrt⟩ : MathOps ℝ)).m_endEffectorPosition =
      Backend.forwardKinematicsPosition (⟨Real.pi, Real.cos, Real.sin, Real.sqrt⟩ : MathOps ℝ) (Backend.new (⟨Real.pi, Real.cos, Real.sin, Real.sqrt⟩ : MathOps ℝ)).joint1Rotation
        (Backend.new (⟨Real.pi, Real.cos, Real.sin, Real.sqrt⟩ : MathOps ℝ)).joint2Rotation (Backend.new (⟨Real.pi, Real.cos, Real.sin, Real.sqrt⟩ : MathOps ℝ)).joint3Rotation
        (Backend.new (⟨Real.pi, Real.cos, Real.sin, Real.sqrt⟩ : MathOps ℝ)).joint4Rotation (Backend.new (⟨Real.pi, Real.cos, Real.sin, Real.sqrt⟩ : MathOps ℝ)).joint5Rotation
        (Backend.new (⟨Real.pi, Real.cos, Real.sin, Real.sqrt⟩ : MathOps ℝ)).joint6Rotation := by
    rw [hp, h1, h2, h3, h4, h5, h6]
    rfl
  refine ⟨hpos, ?_⟩
  rw [hf, Backend.collisionValue_eq, Backend.checkWorkspaceLimits_of_formula _ _ _ _ hpos,
    Bool.or_false]
  simp only [Backend.checkSelfCollision, h1, h2, h3]
  rfl

/-- C16: starting from the constructed state, after any sequence of public
operations (each write to a holder processed with its receivers in connection
order) the stored end-effector position is the forward-kinematics position of
the current joint values, and the collision flag is true exactly when one of the
heuristics fires on the current joints and that position.  The same holds after
a direct write of any value to any joint holder of an up-to-date state. -/
theorem C16_derived_state_up_to_date (ops : List Op) :
    (runOps (⟨Real.pi, Real.cos, Real.sin, Real.sqrt⟩ : MathOps ℝ) (Backend.new (⟨Real.pi, Real.cos, Real.sin, Real.sqrt⟩ : MathOps ℝ)) ops).m_endEffectorPosition =
      Backend.forwardKinematicsPosition (⟨Real.pi, Real.cos, Real.sin, Real.sqrt⟩ : MathOps ℝ)
        (runOps (⟨Real.pi, Real.cos, Real.sin, Real.sqrt⟩ : MathOps ℝ) (Backend.new (⟨Real.pi, Real.cos, Real.sin, Real.sqrt⟩ : MathOps ℝ)) ops).joint1Rotation
        (runOps (⟨Real.pi, Real.cos, Real.sin, Real.sqrt⟩ : MathOps ℝ) (Backend.new (⟨Real.pi, Real.cos, Real.sin, Real.sqrt⟩ : MathOps ℝ)) ops).joint2Rotation
        (runOps (⟨Real.pi, Real.cos, Real.sin, Real.sqrt⟩ : MathOps ℝ) (Backend.new (⟨Real.pi, Real.cos, Real.sin, Real.sqrt⟩ : MathOps ℝ)) ops).joint3Rotation
        (runOps (⟨Real.pi, Real.cos, Real.sin, Real.sqrt⟩ : MathOps ℝ) (Backend.new (⟨Real.pi, Real.cos, Real.sin, Real.sqrt⟩ : MathOps ℝ)) ops).joint4Rotation
        (runOps (⟨Real.pi, Real.cos, Real.sin, Real.sqrt⟩ : MathOps ℝ) (Backend.new (⟨Real.pi, Real.cos, Real.sin, Real.sqrt⟩ : MathOps ℝ)) ops).joint5Rotation
        (runOps (⟨Real.pi, Real.cos, Real.sin, Real.sqrt⟩ : MathOps ℝ) (Backend.new (⟨Real.pi, Real.cos, Real.sin, Real.sqrt⟩ : MathOps ℝ)) ops).joint6Rotation ∧
    ((runOps (⟨Real.pi, Real.cos, Real.sin, Real.sqrt⟩ : MathOps ℝ) (Backend.new (⟨Real.pi, Real.cos, Real.sin, Real.sqrt⟩ : MathOps ℝ)) ops).m_isCollision = true ↔
      (runOps (⟨Real.pi, Real.cos, Real.sin, Real.sqrt⟩ : MathOps ℝ) (Backend.new (⟨Real.pi, Real.cos, Real.sin, Real.sqrt⟩ : MathOps ℝ)) ops).checkSelfCollision = true ∨
      (runOps (⟨Real.pi, Real.cos, Real.sin, Real.sqrt⟩ : MathOps ℝ) (Backend.new (⟨Real.pi, Real.cos, Real.sin, Real.sqrt⟩ : MathOps ℝ)) ops).checkWorkspaceLimits (⟨Real.pi, Real.cos, Real.sin, Real.sqrt⟩ : MathOps ℝ) = true ∨
      (runOps (⟨Real.pi, Real.cos, Real.sin, Real.sqrt⟩ : MathOps ℝ) (Backend.new (⟨Real.pi, Real.cos, Real.sin, Real.sqrt⟩ : MathOps ℝ)) ops).checkBaseCollisions = true ∨
      (runOps (⟨Real.pi, Real.cos, Real.sin, Real.sqrt⟩ : MathOps ℝ) (Backend.new (⟨Real.pi, Real.cos, Real.sin, Real.sqrt⟩ : MathOps ℝ)) ops).checkArmSegmentCollisions = true ∨
      (runOps (⟨Real.pi, Real.cos, Real.sin, Real.sqrt⟩ : MathOps ℝ) (Backend.new (⟨Real.pi, Real.cos, Real.sin, Real.sqrt⟩ : MathOps ℝ)) ops).checkWristCollisions = true ∨
      (runOps (⟨Real.pi, Real.cos, Real.sin, Real.sqrt⟩ : MathOps ℝ) (Backend.new (⟨Real.pi, Real.cos, Real.sin, Real.sqrt⟩ : MathOps ℝ)) ops).checkGripperCollisions = true) ∧
    (runOps (⟨Real.pi, Real.cos, Real.sin, Real.sqrt⟩ : MathOps ℝ) (Backend.new (⟨Real.pi, Real.cos, Real.sin, Real.sqrt⟩ : MathOps ℝ)) ops).UpToDate (⟨Real.pi, Real.cos, Real.sin, Real.sqrt⟩ : MathOps ℝ) ∧
    (∀ (s : Backend ℝ) (a : Int), s.UpToDate (⟨Real.pi, Real.cos, Real.sin, Real.sqrt⟩ : MathOps ℝ) →
      (s.m_joint1Rotation_setValue (⟨Real.pi, Real.cos, Real.sin, Real.sqrt⟩ : MathOps ℝ) a).UpToDate (⟨Real.pi, Real.cos, Real.sin, Real.sqrt⟩ : MathOps ℝ) ∧
      (s.m_joint2Rotation_setValue (⟨Real.pi, Real.cos, Real.sin, Real.sqrt⟩ : MathOps ℝ) a).UpToDate (⟨Real.pi, Real.cos, Real.sin, Real.sqrt⟩ : MathOps ℝ) ∧
      (s.m_joint3Rotation_setValue (⟨Real.pi, Real.cos, Real.sin, Real.sqrt⟩ : MathOps ℝ) a).UpToDate (⟨Real.pi, Real.cos, Real.sin, Real.sqrt⟩ : MathOps ℝ) ∧
      (s.m_joint4Rotation_setValue (⟨Real.pi, Real.cos, Real.sin, Real.sqrt⟩ : MathOps ℝ) a).UpToDate (⟨Real.pi, Real.cos, Real.sin, Real.sqrt⟩ : MathOps ℝ) ∧
      (s.m_joint5Rotation_setValue (⟨Real.pi, Real.cos, Real.sin, Real.sqrt⟩ : MathOps ℝ) a).UpToDate (⟨Real.pi, Real.cos, Real.sin, Real.sqrt⟩ : MathOps ℝ) ∧
      (s.m_joint6Rotation_setValue (⟨Real.pi, Real.cos, Real.sin, Real.sqrt⟩ : MathOps ℝ) a).UpToDate (⟨Real.pi, Real.cos, Real.sin, Real.sqrt⟩ : MathOps ℝ)) := by
  have key : ∀ (l : List Op) (s : Backend ℝ), s.UpToDate (⟨Real.pi, Real.cos, Real.sin, Real.sqrt⟩ : MathOps ℝ) →
      (runOps (⟨Real.pi, Real.cos, Real.sin, Real.sqrt⟩ : MathOps ℝ) s l).UpToDate (⟨Real.pi, Real.cos, Real.sin, Real.sqrt⟩ : MathOps ℝ) := by
    intro l
    unfold runOps
    induction l with
    | nil => exact fun s h => h
    | cons op rest ih => exact fun s h => ih (op.run (⟨Real.pi, Real.cos, Real.sin, Real.sqrt⟩ : MathOps ℝ) s) (Op.run_upToDate s op h)
  have hup := key ops _ Backend.upToDate_new
  refine ⟨hup.1, ?_, hup, ?_⟩
  · rw [hup.2]
    simp [Backend.collisionValue, Backend.checkBaseCollisions,
      Backend.checkArmSegmentCollisions, Backend.checkWristCollisions,
      Backend.checkGripperCollisions]
  · intro s a h
    exact ⟨Backend.upToDate_m_joint1Rotation_setValue a s h,
      Backend.upToDate_m_joint2Rotation_setValue a s h,
      Backend.upToDate_m_joint3Rotation_setValue a s h,
      Backend.upToDate_m_joint4Rotation_setValue a s h,
      Backend.upToDate_m_joint5Rotation_setValue a s h,
      Backend.upToDate_m_joint6Rotation_setValue a s h⟩

/-! ### The flag is set together with an `emergencyStop` -/

theorem Backend.stopLogged_emit {α : Type} [LinearOrderedField α] (sig : Signal)
    (s : Backend α) (h : s.StopLogged) : (s.emit sig).StopLogged :=
  fun hc => List.mem_append_left _ (h hc)

theorem Backend.stopLogged_updateMovingState {α : Type} [LinearOrderedField α]
    (s : Backend α) (h : s.StopLogged) : s.updateMovingState.StopLogged := by
  unfold Backend.updateMovingState
  dsimp only
  split_ifs
  · exact Backend.stopLogged_emit _ _ (Backend.stopLogged_emit _ _ h)
  · exact Backend.stopLogged_emit _ _ h

theorem Backend.stopLogged_detectCollision {α : Type} [LinearOrderedField α] (m : MathOps α)
    (s : Backend α) (h : s.StopLogged) : (s.detectCollision m).StopLogged := by
  unfold Backend.detectCollision
  dsimp only
  split_ifs with h1 h2
  · intro _
    simp [Backend.emit]
  · intro hc
    exact absurd hc h2
  · exact h

theorem Backend.stopLogged_updateEndEffectorPosition {α : Type} [LinearOrderedField α]
    (m : MathOps α) (s : Backend α) (h : s.StopLogged) :
    (s.updateEndEffectorPosition m).StopLogged := by
  unfold Backend.updateEndEffectorPosition Backend.calculateForwardKinematics
  dsimp only
  split_ifs
  · exact fun hc => List.mem_append_left _ (h hc)
  · exact h

theorem Backend.stopLogged_jointValueChanged {α : Type} [LinearOrderedField α] (m : MathOps α)
    (sig : Signal) (s : Backend α) (h : s.StopLogged) : (s.jointValueChanged m sig).StopLogged :=
  Backend.stopLogged_updateEndEffectorPosition m _
    (Backend.stopLogged_detectCollision m _
      (Backend.stopLogged_updateMovingState _ (Backend.stopLogged_emit sig s h)))

theorem Backend.stopLogged_setJoint1Rotation {α : Type} [LinearOrderedField α]
    (m : MathOps α) (a : Int) (s : Backend α) (h : s.StopLogged) :
    (s.setJoint1Rotation m a).StopLogged := by
  unfold Backend.setJoint1Rotation Backend.m_joint1Rotation_setValue
  dsimp only
  split_ifs
  · exact Backend.stopLogged_jointValueChanged m _ _ h
  · exact h
  · exact h

theorem Backend.stopLogged_setJoint2Rotation {α : Type} [LinearOrderedField α]
    (m : MathOps α) (a : Int) (s : Backend α) (h : s.StopLogged) :
    (s.setJoint2Rotation m a).StopLogged := by
  unfold Backend.setJoint2Rotation Backend.m_joint2Rotation_setValue
  dsimp only
  split_ifs
  · exact Backend.stopLogged_jointValueChanged m _ _ h
  · exact h
  · exact h

theorem Backend.stopLogged_setJoint3Rotation {α : Type} [LinearOrderedField α]
    (m : MathOps α) (a : Int) (s : Backend α) (h : s.StopLogged) :
    (s.setJoint3Rotation m a).StopLogged := by
  unfold Backend.setJoint3Rotation Backend.m_joint3Rotation_setValue
  dsimp only
  split_ifs
  · exact Backend.stopLogged_jointValueChanged m _ _ h
  · exact h
  · exact h

theorem Backend.stopLogged_setJoint4Rotation {α : Type} [LinearOrderedField α]
    (m : MathOps α) (a : Int) (s : Backend α) (h : s.StopLogged) :
    (s.setJoint4Rotation m a).StopLogged := by
  unfold Backend.setJoint4Rotation Backend.m_joint4Rotation_setValue
  dsimp only
  split_ifs
  · exact Backend.stopLogged_jointValueChanged m _ _ h
  · exact h
  · exact h

theorem Backend.stopLogged_setJoint5Rotation {α : Type} [LinearOrderedField α]
    (m : MathOps α) (a : Int) (s : Backend α) (h : s.StopLogged) :
    (s.setJoint5Rotation m a).StopLogged := by
  unfold Backend.setJoint5Rotation Backend.m_joint5Rotation_setValue
  dsimp only
  split_ifs
  · exact Backend.stopLogged_jointValueChanged m _ _ h
  · exact h
  · exact h

theorem Backend.stopLogged_setJoint6Rotation {α : Type} [LinearOrderedField α]
    (m : MathOps α) (a : Int) (s : Backend α) (h : s.StopLogged) :
    (s.setJoint6Rotation m a).StopLogged := by
  unfold Backend.setJoint6Rotation Backend.m_joint6Rotation_setValue
  dsimp only
  split_ifs
  · exact Backend.stopLogged_jointValueChanged m _ _ h
  · exact h
  · exact h

theorem Backend.stopLogged_setGripperAngle {α : Type} [LinearOrderedField α] (a : Int)
    (s : Backend α) (h : s.StopLogged) : (s.setGripperAngle a).StopLogged := by
  unfold Backend.setGripperAngle Backend.m_gripperAngle_setValue
  dsimp only
  split_ifs
  · exact Backend.stopLogged_updateMovingState _ (Backend.stopLogged_emit _ _ h)
  · exact h

theorem Backend.stopLogged_setAllJoints {α : Type} [LinearOrderedField α] (m : MathOps α)
    (j1 j2 j3 j4 j5 j6 : Int) (s : Backend α) (h : s.StopLogged) :
    (s.setAllJoints m j1 j2 j3 j4 j5 j6).StopLogged := by
  unfold Backend.setAllJoints
  dsimp only
  split_ifs
  · exact Backend.stopLogged_setJoint6Rotation m j6 _
      (Backend.stopLogged_setJoint5Rotation m j5 _
        (Backend.stopLogged_setJoint4Rotation m j4 _
          (Backend.stopLogged_setJoint3Rotation m j3 _
            (Backend.stopLogged_setJoint2Rotation m j2 _
              (Backend.stopLogged_setJoint1Rotation m j1 s h)))))
  · exact h

theorem Backend.stopLogged_new {α : Type} [LinearOrderedField α] (m : MathOps α) :
    (Backend.new m).StopLogged := by
  intro hc
  have hf : (Backend.new m).m_isCollision = false :=
    Backend.m_isCollision_updateEndEffectorPosition _ _
  rw [hf] at hc
  exact absurd hc Bool.false_ne_true

/-! ### The rest preset -/

/-- In any state, after `moveToRestPosition` the self-collision heuristic fires. -/
theorem Backend.checkSelfCollision_moveToRestPosition {α : Type} [LinearOrderedField α]
    (m : MathOps α) (s : Backend α) : (s.moveToRestPosition m).checkSelfCollision = true := by
  have hv : (s.moveToRestPosition m).values = [0, 75, -110, 0, 35, 0, 0] := by
    unfold Backend.moveToRestPosition
    rw [Backend.values_setGripperAngle,
      Backend.values_setAllJoints_of_safe m s 0 75 (-110) 0 35 0 (by decide)]
    rfl
  simp only [Backend.values, List.cons.injEq] at hv
  obtain ⟨h1, h2, h3, -⟩ := hv
  unfold Backend.checkSelfCollision
  rw [h1, h2, h3]
  decide

/-- C19: the safety gate does not exclude a collision.  The rest preset
(0, 75, -110, 0, 35, 0) passes `isPositionSafe` and is applied by
`moveToRestPosition`; in the resulting state `checkSelfCollision` is true; and
`detectCollision`, run on a state where `checkSelfCollision` is true and the flag
is not set, sets the flag and emits `hasCollisionChanged` and `emergencyStop`.
On the constructed arm, `moveToRestPosition` ends with the flag set and an
`emergencyStop` in the log. -/
theorem C19_rest_preset_collides {α : Type} [LinearOrderedField α] (m : MathOps α)
    (s : Backend α) :
    isPositionSafe 0 75 (-110) 0 35 0 = true ∧
    (s.moveToRestPosition m).values = [0, 75, -110, 0, 35, 0, 0] ∧
    (s.moveToRestPosition m).checkSelfCollision = true ∧
    (∀ t : Backend α, t.checkSelfCollision = true → t.m_isCollision = false →
      (t.detectCollision m).m_isCollision = true ∧
      (t.detectCollision m).emitted =
        t.emitted ++ [Signal.hasCollisionChanged, Signal.emergencyStop]) ∧
    ((Backend.new (⟨Real.pi, Real.cos, Real.sin, Real.sqrt⟩ : MathOps ℝ)).moveToRestPosition (⟨Real.pi, Real.cos, Real.sin, Real.sqrt⟩ : MathOps ℝ)).hasCollision = true ∧
    Signal.emergencyStop ∈ ((Backend.new (⟨Real.pi, Real.cos, Real.sin, Real.sqrt⟩ : MathOps ℝ)).moveToRestPosition (⟨Real.pi, Real.cos, Real.sin, Real.sqrt⟩ : MathOps ℝ)).emitted := by
  have hflag : ((Backend.new (⟨Real.pi, Real.cos, Real.sin, Real.sqrt⟩ : MathOps ℝ)).moveToRestPosition (⟨Real.pi, Real.cos, Real.sin, Real.sqrt⟩ : MathOps ℝ)).m_isCollision = true := by
    have hup : ((Backend.new (⟨Real.pi, Real.cos, Real.sin, Real.sqrt⟩ : MathOps ℝ)).moveToRestPosition (⟨Real.pi, Real.cos, Real.sin, Real.sqrt⟩ : MathOps ℝ)).UpToDate (⟨Real.pi, Real.cos, Real.sin, Real.sqrt⟩ : MathOps ℝ) :=
      Op.run_upToDate (Backend.new (⟨Real.pi, Real.cos, Real.sin, Real.sqrt⟩ : MathOps ℝ)) Op.moveToRestPosition Backend.upToDate_new
    rw [hup.2, Backend.collisionValue_eq, Backend.checkSelfCollision_moveToRestPosition,
      Bool.true_or]
  have hlog : ((Backend.new (⟨Real.pi, Real.cos, Real.sin, Real.sqrt⟩ : MathOps ℝ)).moveToRestPosition (⟨Real.pi, Real.cos, Real.sin, Real.sqrt⟩ : MathOps ℝ)).StopLogged :=
    Backend.stopLogged_setGripperAngle _ _
      (Backend.stopLogged_setAllJoints _ _ _ _ _ _ _ _ (Backend.stopLogged_new _))
  refine ⟨by decide, ?_, Backend.checkSelfCollision_moveToRestPosition m s, ?_, hflag,
    hlog hflag⟩
  · unfold Backend.moveToRestPosition
    rw [Backend.values_setGripperAngle,
      Backend.values_setAllJoints_of_safe m s 0 75 (-110) 0 35 0 (by decide)]
    rfl
  · intro t ht hf
    have hc : t.collisionValue m = true := by
      rw [Backend.collisionValue_eq, ht, Bool.true_or]
    simp [Backend.detectCollision, hf, hc, Backend.emit]

end RobotArm
